import Mathlib

/-!
Verification model of the dungeon-crawler server module
(src/server/src/lib.rs, a SpacetimeDB module).

Modelling conventions, fixed once for the whole file:

* Rust f32 values are modelled as exact rationals.  Numeric literals such
  as 0.05, 1.5, 0.3 are modelled by the rationals they denote; the f32
  roundings of these constants never move a comparison used by a claim.
* The source frequently computes dist = sqrt(dx*dx + dy*dy) and compares
  dist against a nonnegative constant r.  Because sqrt is monotone, the
  comparison is modelled exactly on squared distances (dist2 <= r*r).
  Where the source uses the sqrt value itself (to normalise a direction
  vector), the model keeps it as an abstract function in FloatModel: no
  verified property depends on its value.
* Trigonometric library calls (cos, sin, atan2, the constant pi) are
  likewise abstracted into FloatModel.  The only trig values a claim
  depends on are cos/sin at 0 and at pi (the raid-boss add spawn angles
  0*pi and 1*pi), where the f32 results round to exactly 1, 0, -1, 0
  (the true f32 sin(pi_f32)*50 is about -4.4e-6 px, below any bound the
  claims compare against); theorems pin exactly those values.
* Machine integers are modelled as unbounded Int/Nat.  Rust i32 division
  truncates toward zero, which matches Lean's Int division.  Rust casts
  (expr as i32) from f32 truncate toward zero, modelled by truncQ.
* SpacetimeDB rolls a reducer's transaction back when it returns Err, so
  an erroring reducer is modelled as Except.error with no state change.
* SpacetimeDB auto_inc columns are modelled by a single fresh-id counter
  next_id in the state; inserted rows get ids at or above it.
* The enemy tick iterates the live enemy table; rows inserted during the
  same tick (the raid-boss skeleton adds) are modelled as not revisited
  by the ongoing iteration, matching the snapshot reading of the store's
  scan() (a lazy finite sequence over the rows present at scan start).
-/

abbrev Q : Type := Rat

-- ── Constants (src/server/src/lib.rs, lines 346-406) ──

def ATTACK_RANGE : Q := 100
def ENEMY_ATTACK_RANGE : Q := 40
def ENEMY_MOVE_SPEED : Q := 2
def LOOT_PICKUP_RANGE : Q := 50
def BASE_XP_PER_LEVEL : Nat := 100
def AI_DT : Q := 1/20
def TILE_SIZE : Q := 36
def ROOM_W : Q := 15 * TILE_SIZE
def ROOM_H : Q := 20 * TILE_SIZE
def CHARGER_TELEGRAPH_TIME : Q := 4/5
def CHARGER_CHARGE_SPEED_MULT : Q := 5
def CHARGER_CHARGE_DURATION : Q := 3/2
def CHARGER_STUN_TIME : Q := 1
def CHARGER_DETECT_RANGE : Q := 200
def WOLF_ORBIT_RADIUS : Q := 50
def BOMBER_FUSE_TIME : Q := 3/2
def BOMBER_EXPLOSION_RADIUS : Q := 80
def BOMBER_TRIGGER_RANGE : Q := 60
def NECRO_FLEE_DISTANCE : Q := 80
def NECRO_TELEPORT_CD : Q := 3
def SHIELD_BASH_CD : Q := 4
def SHIELD_RECOVER_TIME : Q := 1/2
def ARCHER_KITE_DISTANCE : Q := 120
def ARCHER_SHOOT_CD : Q := 2
def ARCHER_SHOOT_RANGE : Q := 180
def OPEN_WORLD_SIZE : Int := 10
def OPEN_WORLD_BASE_RESPAWN_MS : Nat := 45000
def OPEN_WORLD_HOTSPOT_RESPAWN_MS : Nat := 20000

/-- Rust (expr as i32) cast from f32: truncation toward zero. -/
def truncQ (q : Q) : Int := if q < 0 then -((-q).floor) else q.floor

/-- Rust f32::clamp(lo, hi) for lo <= hi. -/
def clampQ (v lo hi : Q) : Q := min (max v lo) hi

/-- Abstraction of the f32 library functions the source calls.  The
    claims hold for every interpretation; hypotheses pin down only the
    values the source actually relies on. -/
structure FloatModel where
  sqrtQ : Q → Q
  cosQ : Q → Q
  sinQ : Q → Q
  atan2Q : Q → Q → Q
  piQ : Q

-- ── Table row types (src/server/src/lib.rs, lines 9-324) ──
-- Identity is modelled as Nat.  The Rust field named def is renamed
-- defense (def is a Lean keyword).  PlayerMessage content is a list of
-- Unicode scalar values, so that the byte length of its UTF-8 encoding
-- and its character count can both be expressed.

structure Player where
  identity : Nat
  name : String
  player_class : String
  level : Nat
  xp : Nat
  hp : Int
  max_hp : Int
  atk : Int
  defense : Int
  speed : Int
  gold : Nat
  dungeons_cleared : Nat
deriving DecidableEq

structure ActiveDungeon where
  id : Nat
  owner_identity : Nat
  depth : Nat
  current_room : Nat
  total_rooms : Nat
  seed : Nat
deriving DecidableEq

structure DungeonEnemy where
  id : Nat
  dungeon_id : Nat
  room_index : Nat
  enemy_type : String
  x : Q
  y : Q
  hp : Int
  max_hp : Int
  atk : Int
  is_alive : Bool
  ai_state : String
  state_timer : Q
  target_x : Q
  target_y : Q
  facing_angle : Q
  pack_id : Option Nat
  current_target : Option Nat
  is_taunted : Bool
  taunted_by : Option Nat
  taunt_timer : Q
  is_boss : Bool
  boss_phase : Nat
deriving DecidableEq

structure PlayerPosition where
  identity : Nat
  dungeon_id : Nat
  x : Q
  y : Q
  facing_x : Q
  facing_y : Q
  name : String
  level : Nat
  player_class : String
  weapon_icon : String
  armor_icon : String
  accessory_icon : String
deriving DecidableEq

structure LootDrop where
  id : Nat
  dungeon_id : Nat
  room_index : Nat
  x : Q
  y : Q
  item_data_json : String
  rarity : String
  picked_up : Bool
deriving DecidableEq

structure InventoryItem where
  id : Nat
  owner_identity : Nat
  item_data_json : String
  equipped_slot : Option String
  card_data_json : Option String
deriving DecidableEq

structure DungeonParticipant where
  id : Nat
  dungeon_id : Nat
  player_identity : Nat
deriving DecidableEq

structure PlayerMessage where
  id : Nat
  dungeon_id : Nat
  sender_identity : Nat
  sender_name : String
  message_type : String
  content : List Nat
  created_at : Nat
deriving DecidableEq

structure ThreatEntry where
  id : Nat
  dungeon_id : Nat
  enemy_id : Nat
  player_identity : Nat
  threat_value : Int
deriving DecidableEq

structure PlayerAbilityState where
  identity : Nat
  dungeon_id : Nat
  taunt_cd : Q
  knockback_cd : Q
  healing_zone_cd : Q
  dash_cd : Q
  post_dash_bonus_timer : Q
deriving DecidableEq

structure ActiveHealingZone where
  id : Nat
  dungeon_id : Nat
  owner_identity : Nat
  x : Q
  y : Q
  radius : Q
  heal_per_tick : Int
  duration_remaining : Q
deriving DecidableEq

structure PlayerGameMode where
  identity : Nat
  mode : String
  instance_id : Option Nat
deriving DecidableEq

structure RaidQueue where
  identity : Nat
  player_class : String
  queued_at : Nat
deriving DecidableEq

structure RaidInstance where
  id : Nat
  started_at : Nat
  boss_hp : Int
  boss_max_hp : Int
  boss_phase : Nat
  wipe_count : Nat
deriving DecidableEq

structure RaidParticipant where
  id : Nat
  raid_id : Nat
  player_identity : Nat
  player_class : String
  disconnected_at : Option Nat
deriving DecidableEq

structure OpenWorldEnemy where
  id : Nat
  instance_id : Nat
  room_x : Int
  room_y : Int
  spawn_point_idx : Nat
  enemy_type : String
  hp : Int
  max_hp : Int
  atk : Int
  x : Q
  y : Q
  is_alive : Bool
  respawn_at : Nat
  ai_state : String
  state_timer : Q
  target_x : Q
  target_y : Q
  facing_angle : Q
deriving DecidableEq

structure OpenWorldPlayer where
  identity : Nat
  instance_id : Nat
  room_x : Int
  room_y : Int
  x : Q
  y : Q
  facing_x : Q
  facing_y : Q
  name : String
  level : Nat
  player_class : String
  weapon_icon : String
  armor_icon : String
  accessory_icon : String
deriving DecidableEq

/-- The state store: every table the verified reducers touch, plus the
    presence bit of the enemy-tick schedule row and the auto_inc
    counter. -/
structure GameState where
  players : List Player
  active_dungeons : List ActiveDungeon
  dungeon_enemies : List DungeonEnemy
  player_positions : List PlayerPosition
  loot_drops : List LootDrop
  inventory_items : List InventoryItem
  dungeon_participants : List DungeonParticipant
  player_messages : List PlayerMessage
  threat_entries : List ThreatEntry
  player_ability_states : List PlayerAbilityState
  healing_zones : List ActiveHealingZone
  player_game_modes : List PlayerGameMode
  raid_queues : List RaidQueue
  raid_instances : List RaidInstance
  raid_participants : List RaidParticipant
  open_world_enemies : List OpenWorldEnemy
  open_world_players : List OpenWorldPlayer
  enemy_tick_running : Bool
  next_id : Nat
deriving DecidableEq

-- ── Keyed-table primitives ──

def findByKey {α : Type} (key : α → Nat) (k : Nat) (l : List α) : Option α :=
  l.find? (fun r => key r == k)

def updateByKey {α : Type} (key : α → Nat) (k : Nat) (f : α → α) (l : List α) : List α :=
  l.map (fun r => if key r = k then f r else r)

def deleteByKey {α : Type} (key : α → Nat) (k : Nat) (l : List α) : List α :=
  l.filter (fun r => key r != k)

/-- One player-HP write site: find the row by identity and replace its
    hp field (the source looks the row up by primary key and updates
    it; with a keyed table this is the same as mapping over the list). -/
def setPlayerHp (target : Nat) (f : Player → Int) (players : List Player) : List Player :=
  players.map (fun p => if p.identity = target then { p with hp := f p } else p)

-- ── Pure helper functions of the source ──

/-- get_class_stats (lib.rs 411-432): (max_hp, atk, def, speed). -/
def get_class_stats (player_class : String) : Int × Int × Int × Int :=
  if player_class = "tank" then (130, 8, 7, 4)
  else if player_class = "healer" then (100, 9, 5, 5)
  else if player_class = "dps" then (80, 12, 4, 6)
  else (100, 10, 5, 5)

/-- check_level_up (lib.rs 2279-2294): keep levelling while
    xp >= lvl * BASE_XP_PER_LEVEL, adding +1 level, +10 max_hp, +2 atk,
    +1 def per iteration. -/
def check_level_up (level : Nat) (xp : Nat) (max_hp atk defense : Int) :
    Nat × Int × Int × Int :=
  if xp ≥ level * BASE_XP_PER_LEVEL then
    check_level_up (level + 1) xp (max_hp + 10) (atk + 2) (defense + 1)
  else
    (level, max_hp, atk, defense)
termination_by xp + BASE_XP_PER_LEVEL - level * BASE_XP_PER_LEVEL
decreasing_by
  simp only [BASE_XP_PER_LEVEL] at *
  omega

/-- get_enemy_stats (lib.rs 2143-2160): (hp, atk) scaled by depth. -/
def get_enemy_stats (enemy_type : String) (depth : Nat) : Int × Int :=
  let scale : Q := 1 + ((depth : Q) - 1) * (15/100)
  let base : Int × Int :=
    if enemy_type = "skeleton" then (60, 12)
    else if enemy_type = "slime" then (40, 8)
    else if enemy_type = "charger" then (40, 20)
    else if enemy_type = "necromancer" then (60, 5)
    else if enemy_type = "bat" then (15, 6)
    else if enemy_type = "wolf" then (20, 8)
    else if enemy_type = "bomber" then (25, 30)
    else if enemy_type = "shield_knight" then (70, 12)
    else if enemy_type = "archer" then (35, 10)
    else if enemy_type = "boss" then (300, 18)
    else if enemy_type = "raid_boss" then (800, 25)
    else (20, 5)
  (truncQ ((base.1 : Q) * scale), truncQ ((base.2 : Q) * scale))

/-- get_enemy_speed (lib.rs 2163-2174). -/
def get_enemy_speed (enemy_type : String) : Q :=
  if enemy_type = "charger" then ENEMY_MOVE_SPEED * (5/2)
  else if enemy_type = "bat" then ENEMY_MOVE_SPEED * (3/2)
  else if enemy_type = "wolf" then ENEMY_MOVE_SPEED * (9/5)
  else if enemy_type = "necromancer" then ENEMY_MOVE_SPEED * (1/2)
  else if enemy_type = "bomber" then ENEMY_MOVE_SPEED * (4/5)
  else if enemy_type = "shield_knight" then ENEMY_MOVE_SPEED * (7/10)
  else if enemy_type = "archer" then ENEMY_MOVE_SPEED * (3/5)
  else ENEMY_MOVE_SPEED

/-- get_enemy_xp (lib.rs 2177-2191). -/
def get_enemy_xp (enemy_type : String) : Nat :=
  if enemy_type = "skeleton" then 15
  else if enemy_type = "slime" then 10
  else if enemy_type = "charger" then 25
  else if enemy_type = "necromancer" then 50
  else if enemy_type = "bat" then 8
  else if enemy_type = "wolf" then 12
  else if enemy_type = "bomber" then 20
  else if enemy_type = "shield_knight" then 35
  else if enemy_type = "archer" then 18
  else if enemy_type = "boss" then 100
  else 10

-- ── Threat subsystem (lib.rs 435-476) ──

/-- add_threat: upsert the (dungeon, enemy, player) threat row, summing
    amounts; the source updates the first matching row it scans. -/
def add_threat (dungeon_id enemy_id player_identity : Nat) (amount : Int)
    (st : GameState) : GameState :=
  match st.threat_entries.find? (fun t =>
      t.dungeon_id == dungeon_id && t.enemy_id == enemy_id &&
      t.player_identity == player_identity) with
  | some entry =>
      { st with threat_entries :=
          (updateByKey (fun t => t.id) entry.id
            (fun t => { t with threat_value := entry.threat_value + amount })
            st.threat_entries) }
  | none =>
      { st with
          threat_entries := st.threat_entries ++
            [{ id := st.next_id, dungeon_id, enemy_id, player_identity,
               threat_value := amount }],
          next_id := st.next_id + 1 }

/-- get_highest_threat_player: linear scan keeping the first entry whose
    threat strictly exceeds every earlier one; threat must be > 0. -/
def get_highest_threat_player (dungeon_id enemy_id : Nat)
    (entries : List ThreatEntry) : Option Nat :=
  (entries.foldl (fun acc entry =>
      if entry.dungeon_id = dungeon_id ∧ entry.enemy_id = enemy_id ∧
         entry.threat_value > acc.1
      then (entry.threat_value, some entry.player_identity)
      else acc) ((0 : Int), none)).2

-- ── Ability cooldowns and healing zones (lib.rs 479-551) ──

/-- tick_ability_cooldowns: decrement every cooldown field by dt,
    clamped at 0. -/
def tick_ability_cooldowns (dt : Q) (states : List PlayerAbilityState) :
    List PlayerAbilityState :=
  states.map (fun s =>
    { s with
        taunt_cd := max (s.taunt_cd - dt) 0,
        knockback_cd := max (s.knockback_cd - dt) 0,
        healing_zone_cd := max (s.healing_zone_cd - dt) 0,
        dash_cd := max (s.dash_cd - dt) 0,
        post_dash_bonus_timer := max (s.post_dash_bonus_timer - dt) 0 })

/-- tick_healing_zones (lib.rs 493-551).  Zones with no remaining
    duration are deleted; an active zone heals every same-dungeon player
    within its radius by (heal_per_tick as f32 * dt) as i32, capped at
    max_hp, then its duration is decremented.  Afterwards every healer
    position heals every other same-dungeon player within 40 px by
    (5.0 * dt) as i32.  Distance checks d <= r are modelled as
    d*d <= r*r. -/
def tick_healing_zones (dt : Q) (st : GameState) : GameState :=
  let zones := st.healing_zones
  let positions := st.player_positions
  let st := zones.foldl (fun st zone =>
    if zone.duration_remaining ≤ 0 then
      { st with healing_zones := deleteByKey (fun z => z.id) zone.id st.healing_zones }
    else
      let st := positions.foldl (fun st pos =>
        if pos.dungeon_id ≠ zone.dungeon_id then st
        else if (pos.x - zone.x) * (pos.x - zone.x) +
                (pos.y - zone.y) * (pos.y - zone.y) ≤ zone.radius * zone.radius then
          { st with players :=
              (setPlayerHp pos.identity
                (fun p => min (p.hp + truncQ ((zone.heal_per_tick : Q) * dt)) p.max_hp)
                st.players) }
        else st) st
      { st with healing_zones :=
          (updateByKey (fun z => z.id) zone.id
            (fun z => { z with duration_remaining := zone.duration_remaining - dt })
            st.healing_zones) }) st
  positions.foldl (fun st pos =>
    if pos.player_class ≠ "healer" then st
    else positions.foldl (fun st other =>
      if other.identity = pos.identity ∨ other.dungeon_id ≠ pos.dungeon_id then st
      else if (other.x - pos.x) * (other.x - pos.x) +
              (other.y - pos.y) * (other.y - pos.y) ≤ 40 * 40 then
        { st with players :=
            (setPlayerHp other.identity
              (fun p => min (p.hp + truncQ (5 * dt)) p.max_hp)
              st.players) }
      else st) st) st

-- ── Enemy AI (lib.rs 1531-2048) ──

/-- Result of running one enemy's AI: the updated enemy, the (possibly
    damaged) player table, and any rows the AI inserted into the enemy
    table (only the raid boss inserts). -/
structure EnemyTickResult where
  e : DungeonEnemy
  players : List Player
  inserted : List DungeonEnemy

/-- The player-damage pattern repeated at every melee/ranged hit site:
    damage = (atkv - player.def / 2).max(1); hp = (hp - damage).max(0).
    Call sites pass the raw atk, or its 1.5x / 0.5x truncated variants,
    exactly as the source computes them. -/
def meleeHit (atkv : Int) (target : Nat) (players : List Player) : List Player :=
  setPlayerHp target (fun p => max (p.hp - max (atkv - p.defense / 2) 1) 0) players

/-- The raid boss AoE pattern: a fixed damage amount, hp clamped at 0. -/
def aoeHit (dmg : Int) (target : Nat) (players : List Player) : List Player :=
  setPlayerHp target (fun p => max (p.hp - dmg) 0) players

/-- ai_basic_melee (lib.rs 1531-1564): chase / attack with a 1.2 s
    cooldown held in state_timer. -/
def ai_basic_melee (M : FloatModel) (e : DungeonEnemy) (target : PlayerPosition)
    (d2 nx ny dt : Q) (players : List Player) : EnemyTickResult :=
  let speed := get_enemy_speed e.enemy_type * dt * 60
  let e := { e with facing_angle := M.atan2Q ny nx }
  let e := if e.state_timer > 0 then { e with state_timer := e.state_timer - dt } else e
  if d2 ≤ ENEMY_ATTACK_RANGE * ENEMY_ATTACK_RANGE then
    if e.state_timer ≤ 0 then
      { e := { e with state_timer := 6/5, ai_state := "attack" },
        players := meleeHit e.atk target.identity players,
        inserted := [] }
    else { e := e, players := players, inserted := [] }
  else
    { e := { e with ai_state := "chase", x := e.x + nx * speed, y := e.y + ny * speed },
      players := players, inserted := [] }

/-- ai_charger (lib.rs 1567-1649): idle / telegraph / charge / stunned. -/
def ai_charger (M : FloatModel) (e : DungeonEnemy) (target : PlayerPosition)
    (dx dy d2 nx ny dt : Q) (players : List Player) : EnemyTickResult :=
  let base_speed := get_enemy_speed e.enemy_type * dt * 60
  if e.ai_state = "stunned" then
    let e := { e with state_timer := e.state_timer - dt }
    let e := if e.state_timer ≤ 0 then { e with ai_state := "idle", state_timer := 0 } else e
    { e := e, players := players, inserted := [] }
  else if e.ai_state = "telegraph" then
    let e := { e with state_timer := e.state_timer - dt }
    let e : DungeonEnemy :=
      if e.state_timer > CHARGER_TELEGRAPH_TIME - 1/10 then
        let tx := dx
        let ty := dy
        let mag2 := dx * dx + dy * dy
        let mag := M.sqrtQ mag2
        let tx := if mag2 > 1/100 then tx / mag else tx
        let ty := if mag2 > 1/100 then ty / mag else ty
        { e with target_x := tx, target_y := ty, facing_angle := M.atan2Q ty tx }
      else e
    let e : DungeonEnemy :=
      if e.state_timer ≤ 0 then
        { e with ai_state := "charge", state_timer := CHARGER_CHARGE_DURATION }
      else e
    { e := e, players := players, inserted := [] }
  else if e.ai_state = "charge" then
    let e := { e with state_timer := e.state_timer - dt }
    let charge_speed := base_speed * CHARGER_CHARGE_SPEED_MULT
    let new_x := e.x + e.target_x * charge_speed
    let new_y := e.y + e.target_y * charge_speed
    let hit_wall := new_x < TILE_SIZE ∨ new_x > ROOM_W - TILE_SIZE ∨
                    new_y < TILE_SIZE ∨ new_y > ROOM_H - TILE_SIZE
    let step : DungeonEnemy × List Player :=
      if hit_wall then
        ({ e with ai_state := "stunned", state_timer := CHARGER_STUN_TIME }, players)
      else
        let e := { e with x := new_x, y := new_y }
        let pd2 := (target.x - e.x) * (target.x - e.x) + (target.y - e.y) * (target.y - e.y)
        if pd2 < 30 * 30 then
          ({ e with ai_state := "stunned", state_timer := CHARGER_STUN_TIME },
           meleeHit (truncQ ((e.atk : Q) * (3/2))) target.identity players)
        else (e, players)
    let e := step.1
    let e := if e.state_timer ≤ 0 then { e with ai_state := "idle", state_timer := 0 } else e
    { e := e, players := step.2, inserted := [] }
  else
    let e := { e with facing_angle := M.atan2Q ny nx }
    let e := if d2 > 60 * 60 then
        { e with x := e.x + nx * base_speed * (1/2), y := e.y + ny * base_speed * (1/2) }
      else e
    let e := { e with state_timer := e.state_timer - dt }
    let e :=
      if e.state_timer ≤ 0 ∧ d2 < CHARGER_DETECT_RANGE * CHARGER_DETECT_RANGE then
        { e with ai_state := "telegraph", state_timer := CHARGER_TELEGRAPH_TIME }
      else e
    { e := e, players := players, inserted := [] }

/-- ai_wolf (lib.rs 1652-1712): orbit in pack formation; target_x is
    reused as the attack cooldown. -/
def ai_wolf (M : FloatModel) (e : DungeonEnemy) (target : PlayerPosition)
    (d2 dt : Q) (all_enemies : List DungeonEnemy) (players : List Player) :
    EnemyTickResult :=
  let speed := get_enemy_speed e.enemy_type * dt * 60
  let pack := all_enemies.filter (fun o =>
    o.is_alive && o.enemy_type == "wolf" && o.pack_id == e.pack_id &&
    o.dungeon_id == e.dungeon_id)
  let pack_size := max pack.length 1
  let my_idx := (pack.findIdx? (fun o => o.id == e.id)).getD 0
  let time_factor := e.state_timer
  let e := { e with state_timer := e.state_timer + dt }
  let angle := (2 * M.piQ / (pack_size : Q)) * (my_idx : Q) + time_factor
  let orbit_x := target.x + M.cosQ angle * WOLF_ORBIT_RADIUS
  let orbit_y := target.y + M.sinQ angle * WOLF_ORBIT_RADIUS
  let tdx := orbit_x - e.x
  let tdy := orbit_y - e.y
  let tdist2 := tdx * tdx + tdy * tdy
  let tdist := M.sqrtQ tdist2
  let e := if tdist2 > 5 * 5 then
      { e with x := e.x + (tdx / tdist) * speed, y := e.y + (tdy / tdist) * speed }
    else e
  let e := { e with facing_angle := M.atan2Q (target.y - e.y) (target.x - e.x) }
  let close_wolves := (pack.filter (fun w =>
    decide ((target.x - w.x) * (target.x - w.x) +
            (target.y - w.y) * (target.y - w.y) < 60 * 60))).length
  if d2 < 40 * 40 then
    let e : DungeonEnemy := { e with ai_state := if close_wolves ≥ 2 then "pack_attack" else "attack" }
    if e.target_x ≤ 0 then
      { e := { e with target_x := 3/2 },
        players := meleeHit e.atk target.identity players,
        inserted := [] }
    else
      { e := { e with target_x := e.target_x - dt }, players := players, inserted := [] }
  else
    { e := { e with ai_state := "orbit" }, players := players, inserted := [] }

/-- ai_necromancer (lib.rs 1715-1746): flee / teleport / summon; never
    damages players.  The 1.7 / 2.3 pseudo-random factors are kept. -/
def ai_necromancer (M : FloatModel) (e : DungeonEnemy) (d2 nx ny dt : Q) :
    DungeonEnemy :=
  let speed := get_enemy_speed e.enemy_type * dt * 60
  let e := { e with facing_angle := M.atan2Q ny nx, state_timer := e.state_timer - dt }
  if d2 < NECRO_FLEE_DISTANCE * NECRO_FLEE_DISTANCE then
    if e.state_timer ≤ 0 then
      let tx := TILE_SIZE * 2 + |M.sinQ ((e.id : Q) * (17/10))| * (ROOM_W - TILE_SIZE * 4)
      let ty := TILE_SIZE * 3 + |M.cosQ ((e.id : Q) * (23/10))| * (ROOM_H - TILE_SIZE * 6)
      { e with target_x := tx, target_y := ty, x := tx, y := ty,
               ai_state := "teleport", state_timer := NECRO_TELEPORT_CD }
    else
      { e with ai_state := "flee", x := e.x - nx * speed, y := e.y - ny * speed }
  else if d2 < 150 * 150 then
    { e with ai_state := "flee",
             x := e.x - nx * speed * (1/2), y := e.y - ny * speed * (1/2) }
  else
    { e with ai_state := "summon" }

/-- ai_bomber (lib.rs 1749-1798): chase / fuse / explode; the explosion
    damages every same-dungeon player within 80 px and kills the bomber. -/
def ai_bomber (M : FloatModel) (e : DungeonEnemy) (d2 nx ny dt : Q)
    (positions : List PlayerPosition) (players : List Player) : EnemyTickResult :=
  let speed := get_enemy_speed e.enemy_type * dt * 60
  let e := { e with facing_angle := M.atan2Q ny nx }
  if e.ai_state = "fuse" then
    let e := { e with state_timer := e.state_timer - dt }
    if e.state_timer ≤ 0 then
      let e := { e with ai_state := "explode" }
      let players := positions.foldl (fun players pos =>
        if pos.dungeon_id = e.dungeon_id ∧
           (pos.x - e.x) * (pos.x - e.x) + (pos.y - e.y) * (pos.y - e.y) <
             BOMBER_EXPLOSION_RADIUS * BOMBER_EXPLOSION_RADIUS then
          meleeHit e.atk pos.identity players
        else players) players
      { e := { e with hp := 0, is_alive := false }, players := players, inserted := [] }
    else { e := e, players := players, inserted := [] }
  else if e.ai_state = "explode" then
    { e := e, players := players, inserted := [] }
  else
    if d2 < BOMBER_TRIGGER_RANGE * BOMBER_TRIGGER_RANGE then
      { e := { e with ai_state := "fuse", state_timer := BOMBER_FUSE_TIME },
        players := players, inserted := [] }
    else
      { e := { e with ai_state := "chase", x := e.x + nx * speed, y := e.y + ny * speed },
        players := players, inserted := [] }

/-- ai_shield_knight (lib.rs 1801-1861): advance / shield_bash /
    recover, with a plain-attack cooldown kept in negative state_timer. -/
def ai_shield_knight (M : FloatModel) (e : DungeonEnemy) (target : PlayerPosition)
    (d2 nx ny dt : Q) (players : List Player) : EnemyTickResult :=
  let speed := get_enemy_speed e.enemy_type * dt * 60
  let e := { e with facing_angle := M.atan2Q ny nx, state_timer := e.state_timer - dt }
  if e.ai_state = "shield_bash" then
    if e.state_timer ≤ 0 then
      let e := { e with ai_state := "recover", state_timer := SHIELD_RECOVER_TIME }
      if d2 < 50 * 50 then
        { e := e,
          players := meleeHit (truncQ ((e.atk : Q) * (1/2))) target.identity players,
          inserted := [] }
      else { e := e, players := players, inserted := [] }
    else { e := e, players := players, inserted := [] }
  else if e.ai_state = "recover" then
    let e := if e.state_timer ≤ 0 then
        { e with ai_state := "advance", state_timer := SHIELD_BASH_CD }
      else e
    { e := e, players := players, inserted := [] }
  else
    let e := if d2 > ENEMY_ATTACK_RANGE * ENEMY_ATTACK_RANGE then
        { e with x := e.x + nx * speed, y := e.y + ny * speed }
      else e
    let e := if e.state_timer ≤ 0 ∧ d2 < 50 * 50 then
        { e with ai_state := "shield_bash", state_timer := 3/10 }
      else e
    if d2 < ENEMY_ATTACK_RANGE * ENEMY_ATTACK_RANGE ∧ e.state_timer ≤ -1 then
      { e := { e with state_timer := -(5/2) },
        players := meleeHit e.atk target.identity players,
        inserted := [] }
    else { e := e, players := players, inserted := [] }

/-- ai_archer (lib.rs 1864-1900): kite / shoot / chase; the shot is an
    instant hit and records the target position in target_x/target_y. -/
def ai_archer (M : FloatModel) (e : DungeonEnemy) (target : PlayerPosition)
    (d2 nx ny dt : Q) (players : List Player) : EnemyTickResult :=
  let speed := get_enemy_speed e.enemy_type * dt * 60
  let e := { e with facing_angle := M.atan2Q ny nx, state_timer := e.state_timer - dt }
  if d2 < ARCHER_KITE_DISTANCE * ARCHER_KITE_DISTANCE then
    { e := { e with ai_state := "kite", x := e.x - nx * speed, y := e.y - ny * speed },
      players := players, inserted := [] }
  else if d2 < ARCHER_SHOOT_RANGE * ARCHER_SHOOT_RANGE then
    if e.state_timer ≤ 0 then
      { e := ({ e with ai_state := "shoot", state_timer := ARCHER_SHOOT_CD, target_x := target.x, target_y := target.y }),
        players := meleeHit e.atk target.identity players,
        inserted := [] }
    else
      { e := { e with ai_state := "kite" }, players := players, inserted := [] }
  else
    { e := ({ e with ai_state := "chase", x := e.x + nx * speed * (1/2), y := e.y + ny * speed * (1/2) }),
      players := players, inserted := [] }

-- ── Raid boss (lib.rs 1906-2048) ──

/-- Phase from HP fraction (lib.rs 1913-1914): 1 if hp/max_hp > 0.6,
    2 if > 0.3, else 3.  The exact-rational division models the f32
    quotient; both comparisons use the same constants as the source. -/
def phaseOf (hp max_hp : Int) : Nat :=
  let hp_pct : Q := (hp : Q) / (max_hp : Q)
  if hp_pct > 3/5 then 1 else if hp_pct > 3/10 then 2 else 3

/-- Raid-boss entry work (lib.rs 1909-1910): face the target and
    decrement the state timer. -/
def ai_raid_boss_pre (M : FloatModel) (e : DungeonEnemy) (nx ny dt : Q) :
    DungeonEnemy :=
  { e with facing_angle := M.atan2Q ny nx, state_timer := e.state_timer - dt }

/-- Raid-boss phase recomputation and transition effects
    (lib.rs 1912-1934): on a phase change, state_timer := 0.5; entering
    phase 2 teleports to room centre (270, 360); entering phase 3
    multiplies atk by 1.5 (truncated back to i32). -/
def raid_boss_transition (e : DungeonEnemy) : DungeonEnemy :=
  let new_phase := phaseOf e.hp e.max_hp
  if new_phase ≠ e.boss_phase then
    let e := { e with boss_phase := new_phase, state_timer := 1/2 }
    if new_phase = 2 then { e with x := 270, y := 360, ai_state := "phase2" }
    else if new_phase = 3 then
      { e with atk := truncQ ((e.atk : Q) * (3/2)), ai_state := "enrage" }
    else e
  else e

/-- The two skeleton adds the phase-2 boss spawns (lib.rs 1963-1991),
    at angles 0*pi and 1*pi on a 50 px circle around the boss.  Rows
    are inserted with id 0; the tick loop assigns fresh ids. -/
def raid_boss_add (M : FloatModel) (e : DungeonEnemy) (i : Nat) : DungeonEnemy :=
  let angle := (i : Q) * M.piQ
  let stats := get_enemy_stats "skeleton" 1
  { id := 0, dungeon_id := e.dungeon_id, room_index := e.room_index,
    enemy_type := "skeleton",
    x := e.x + M.cosQ angle * 50, y := e.y + M.sinQ angle * 50,
    hp := stats.1, max_hp := stats.1, atk := stats.2, is_alive := true,
    ai_state := "chase", state_timer := 0, target_x := e.x, target_y := e.y,
    facing_angle := angle, pack_id := none, current_target := none,
    is_taunted := false, taunted_by := none, taunt_timer := 0,
    is_boss := false, boss_phase := 0 }

/-- Raid-boss per-phase behaviour (lib.rs 1936-2047). -/
def ai_raid_boss_act (M : FloatModel) (e : DungeonEnemy) (target : PlayerPosition)
    (d2 nx ny dt : Q) (positions : List PlayerPosition) (players : List Player) :
    EnemyTickResult :=
  let speed := 40 * dt * 60
  if e.boss_phase = 1 then
    if d2 ≤ (ENEMY_ATTACK_RANGE + 15) * (ENEMY_ATTACK_RANGE + 15) then
      if e.state_timer ≤ 0 then
        { e := ({ e with state_timer := 1, ai_state := "attack" }),
          players := meleeHit e.atk target.identity players, inserted := [] }
      else { e := e, players := players, inserted := [] }
    else
      { e := ({ e with ai_state := "chase", x := e.x + nx * speed, y := e.y + ny * speed }),
        players := players, inserted := [] }
  else if e.boss_phase = 2 then
    if e.state_timer ≤ 0 then
      { e := ({ e with state_timer := 6, ai_state := "summon" }),
        players := players,
        inserted := [raid_boss_add M e 0, raid_boss_add M e 1] }
    else
      if d2 > (ENEMY_ATTACK_RANGE + 10) * (ENEMY_ATTACK_RANGE + 10) then
        { e := ({ e with x := e.x + nx * speed * (7/10), y := e.y + ny * speed * (7/10) }),
          players := players, inserted := [] }
      else if e.ai_state ≠ "summon" then
        { e := ({ e with ai_state := "attack" }),
          players := meleeHit e.atk target.identity players, inserted := [] }
      else { e := e, players := players, inserted := [] }
  else if e.boss_phase = 3 then
    if e.state_timer ≤ 0 then
      let e := { e with state_timer := 4, ai_state := "aoe" }
      let players := positions.foldl (fun players pos =>
        if pos.dungeon_id = e.dungeon_id then
          aoeHit (max (e.atk / 3) 5) pos.identity players
        else players) players
      { e := e, players := players, inserted := [] }
    else
      let e := { e with ai_state := "enrage" }
      if d2 > ENEMY_ATTACK_RANGE * ENEMY_ATTACK_RANGE then
        { e := ({ e with x := e.x + nx * speed * (3/2), y := e.y + ny * speed * (3/2) }),
          players := players, inserted := [] }
      else
        { e := e, players := meleeHit e.atk target.identity players, inserted := [] }
  else { e := e, players := players, inserted := [] }

/-- ai_raid_boss: pre-work, then phase transition, then behaviour. -/
def ai_raid_boss (M : FloatModel) (e : DungeonEnemy) (target : PlayerPosition)
    (d2 nx ny dt : Q) (positions : List PlayerPosition) (players : List Player) :
    EnemyTickResult :=
  ai_raid_boss_act M (raid_boss_transition (ai_raid_boss_pre M e nx ny dt))
    target d2 nx ny dt positions players

-- ── The enemy tick (lib.rs 1428-1526) ──

/-- The nearest-player fallback (lib.rs 1474-1482): Rust min_by keeps
    the first minimal element, modelled by a strict-less fold over the
    dungeon-filtered positions. -/
def nearest_position (e : DungeonEnemy) (positions : List PlayerPosition) :
    Option PlayerPosition :=
  positions.foldl (fun acc p =>
    if p.dungeon_id ≠ e.dungeon_id then acc
    else match acc with
      | none => some p
      | some q =>
          if (p.x - e.x) * (p.x - e.x) + (p.y - e.y) * (p.y - e.y) <
             (q.x - e.x) * (q.x - e.x) + (q.y - e.y) * (q.y - e.y)
          then some p else acc) none

/-- The archetype dispatch (lib.rs 1507-1516): ranged archetypes
    (necromancer, archer) and the raid boss receive the raw dt; the
    movement archetypes receive dt scaled by the tank-slow multiplier. -/
def dispatch_ai (M : FloatModel) (e : DungeonEnemy) (target : PlayerPosition)
    (dx dy d2 nx ny dt speed_mult : Q) (positions : List PlayerPosition)
    (all_enemies : List DungeonEnemy) (players : List Player) : EnemyTickResult :=
  if e.enemy_type = "charger" then
    ai_charger M e target dx dy d2 nx ny (dt * speed_mult) players
  else if e.enemy_type = "wolf" then
    ai_wolf M e target d2 (dt * speed_mult) all_enemies players
  else if e.enemy_type = "necromancer" then
    { e := ai_necromancer M e d2 nx ny dt, players := players, inserted := [] }
  else if e.enemy_type = "bomber" then
    ai_bomber M e d2 nx ny (dt * speed_mult) positions players
  else if e.enemy_type = "shield_knight" then
    ai_shield_knight M e target d2 nx ny (dt * speed_mult) players
  else if e.enemy_type = "archer" then
    ai_archer M e target d2 nx ny dt players
  else if e.enemy_type = "raid_boss" then
    ai_raid_boss M e target d2 nx ny dt positions players
  else
    ai_basic_melee M e target d2 nx ny (dt * speed_mult) players

/-- One iteration of the enemy loop (lib.rs 1444-1523): taunt timer,
    target selection (taunt, then highest threat, then nearest), tank
    slow aura, archetype dispatch, clamp to room bounds, table update.
    Inserted rows (raid-boss adds) receive fresh ids and are not
    revisited by the ongoing loop. -/
def tick_one_enemy (M : FloatModel) (positions : List PlayerPosition)
    (all_enemies : List DungeonEnemy) (st : GameState) (enemy : DungeonEnemy) :
    GameState :=
  let dt := AI_DT
  let e := enemy
  let e : DungeonEnemy :=
    if e.is_taunted ∧ e.taunt_timer > 0 then
      let t := e.taunt_timer - dt
      if t ≤ 0 then { e with taunt_timer := t, is_taunted := false, taunted_by := none }
      else { e with taunt_timer := t }
    else e
  let target : Option PlayerPosition :=
    if e.is_taunted then
      match e.taunted_by with
      | some tb => positions.find? (fun p => p.identity == tb)
      | none => none
    else
      match get_highest_threat_player e.dungeon_id e.id st.threat_entries with
      | some tt => positions.find? (fun p => p.identity == tt)
      | none => none
  let target := match target with
    | some t => some t
    | none => nearest_position e positions
  match target with
  | none =>
      { st with dungeon_enemies :=
          (updateByKey (fun x => x.id) e.id (fun _ => e) st.dungeon_enemies) }
  | some target =>
      let e := { e with current_target := some target.identity }
      let tank_nearby := positions.any (fun p =>
        p.dungeon_id == e.dungeon_id && p.player_class == "tank" &&
        decide ((p.x - e.x) * (p.x - e.x) + (p.y - e.y) * (p.y - e.y) ≤ 50 * 50))
      let speed_mult : Q := if tank_nearby then 7/10 else 1
      let dx := target.x - e.x
      let dy := target.y - e.y
      let d2 := dx * dx + dy * dy
      let dist := M.sqrtQ d2
      let nx := if d2 > 1/100 then dx / dist else 0
      let ny := if d2 > 1/100 then dy / dist else 0
      let r : EnemyTickResult :=
        dispatch_ai M e target dx dy d2 nx ny dt speed_mult positions all_enemies st.players
      let e2 := { r.e with
        x := clampQ r.e.x TILE_SIZE (ROOM_W - TILE_SIZE),
        y := clampQ r.e.y TILE_SIZE (ROOM_H - TILE_SIZE) }
      let assigned := r.inserted.foldl
        (fun (acc : List DungeonEnemy × Nat) a =>
          (acc.1 ++ [{ a with id := acc.2 }], acc.2 + 1))
        ([], st.next_id)
      { st with
          players := r.players,
          dungeon_enemies :=
            (updateByKey (fun x => x.id) e.id (fun _ => e2) st.dungeon_enemies
              ++ assigned.1),
          next_id := assigned.2 }

/-- The enemy loop over the snapshot of rows present when the scan
    began; dead enemies are skipped without being written back. -/
def process_enemies (M : FloatModel) (positions : List PlayerPosition)
    (all_enemies : List DungeonEnemy) (st : GameState) :
    List DungeonEnemy → GameState
  | [] => st
  | e :: rest =>
      if e.is_alive then
        process_enemies M positions all_enemies
          (tick_one_enemy M positions all_enemies st e) rest
      else process_enemies M positions all_enemies st rest

/-- tick_enemies (lib.rs 1428-1526): snapshot positions and enemies,
    tick ability cooldowns and healing zones, then run every alive
    enemy's AI. -/
def tick_enemies (M : FloatModel) (st : GameState) : GameState :=
  let positions := st.player_positions
  let all_enemies := st.dungeon_enemies
  let st := { st with player_ability_states :=
      tick_ability_cooldowns AI_DT st.player_ability_states }
  let st := tick_healing_zones AI_DT st
  process_enemies M positions all_enemies st all_enemies

-- ── cleanup_dungeon (lib.rs 2297-2342) ──

/-- cleanup_dungeon: deletes the dungeon's enemies, loot drops,
    participants, player positions and messages.  The source contains
    no deletion of threat_entry rows. -/
def cleanup_dungeon (dungeon_id : Nat) (st : GameState) : GameState :=
  let st := { st with dungeon_enemies :=
      st.dungeon_enemies.filter (fun e => e.dungeon_id != dungeon_id) }
  let st := { st with loot_drops :=
      st.loot_drops.filter (fun l => l.dungeon_id != dungeon_id) }
  let st := { st with dungeon_participants :=
      st.dungeon_participants.filter (fun p => p.dungeon_id != dungeon_id) }
  let st := { st with player_positions :=
      st.player_positions.filter (fun p => p.dungeon_id != dungeon_id) }
  { st with player_messages :=
      st.player_messages.filter (fun m => m.dungeon_id != dungeon_id) }

-- ── Room spawning (lib.rs 2061-2140) ──

def U64 : Nat := 18446744073709551616

/-- Fixed 4-room enemy lists (lib.rs 2070-2076). -/
def spawn_list (room_index : Nat) : List String :=
  if room_index = 0 then ["slime", "slime", "skeleton", "bat"]
  else if room_index = 1 then ["archer", "charger", "skeleton", "shield_knight"]
  else if room_index = 2 then ["wolf", "wolf", "necromancer", "bomber"]
  else if room_index = 3 then ["raid_boss"]
  else ["slime", "skeleton"]

/-- spawn_enemies_for_room (lib.rs 2061-2140); u64 wrapping arithmetic
    is modelled mod 2^64. -/
def spawn_enemies_for_room (M : FloatModel) (dungeon_id room_index depth seed : Nat)
    (st : GameState) : GameState :=
  let room_seed := (seed + room_index * 1337) % U64
  let types := spawn_list room_index
  let cnt := types.length
  (types.enum.foldl (fun (acc : GameState × Nat) (ie : Nat × String) =>
    let st := acc.1
    let pack_counter := acc.2
    let i := ie.1
    let et := ie.2
    let stats := get_enemy_stats et depth
    let angle : Q := if et = "raid_boss" then 0 else ((i : Q) / (cnt : Q)) * (2 * M.piQ)
    let r80 : Nat := ((room_seed + i) % U64) % 80
    let radius : Q := if et = "raid_boss" then 0 else 150 + (r80 : Q)
    let x := 270 + M.cosQ angle * radius
    let y := 360 + M.sinQ angle * radius
    let init : String × Option Nat × Nat :=
      if et = "charger" then ("idle", none, pack_counter)
      else if et = "wolf" then
        ("orbit", some ((pack_counter + 1) % U64), (pack_counter + 1) % U64)
      else if et = "bomber" then ("chase", none, pack_counter)
      else if et = "necromancer" then ("flee", none, pack_counter)
      else if et = "shield_knight" then ("advance", none, pack_counter)
      else if et = "archer" then ("kite", none, pack_counter)
      else ("chase", none, pack_counter)
    let is_boss := et = "boss" ∨ et = "raid_boss"
    ({ st with
        dungeon_enemies := st.dungeon_enemies ++
          [{ id := st.next_id, dungeon_id := dungeon_id, room_index := room_index,
             enemy_type := et, x := x, y := y, hp := stats.1, max_hp := stats.1,
             atk := stats.2, is_alive := true, ai_state := init.1, state_timer := 0,
             target_x := x, target_y := y, facing_angle := angle,
             pack_id := init.2.1, current_target := none, is_taunted := false,
             taunted_by := none, taunt_timer := 0, is_boss := is_boss,
             boss_phase := if is_boss then 1 else 0 }],
        next_id := st.next_id + 1 }, init.2.2))
    (st, (seed + room_index) % U64)).1

-- ── start_dungeon (lib.rs 604-781) ──

/-- The position row both paths of start_dungeon write: centre of the
    room, facing (1, 0), visual fields from the Player row, icons kept
    from an existing position row or empty. -/
def start_position_row (sender dungeon_id : Nat) (player : Player)
    (old : Option PlayerPosition) : PlayerPosition :=
  { identity := sender, dungeon_id := dungeon_id, x := 270, y := 360,
    facing_x := 1, facing_y := 0, name := player.name, level := player.level,
    player_class := player.player_class,
    weapon_icon := match old with | some o => o.weapon_icon | none => "",
    armor_icon := match old with | some o => o.armor_icon | none => "",
    accessory_icon := match old with | some o => o.accessory_icon | none => "" }

def upsert_start_position (sender dungeon_id : Nat) (player : Player)
    (st : GameState) : GameState :=
  match findByKey (fun p => p.identity) sender st.player_positions with
  | some old =>
      { st with player_positions :=
          (updateByKey (fun p => p.identity) sender
            (fun _ => start_position_row sender dungeon_id player (some old))
            st.player_positions) }
  | none =>
      { st with player_positions :=
          st.player_positions ++ [start_position_row sender dungeon_id player none] }

/-- The respawn cleanup block of start_dungeon (lib.rs 619-650): for
    each dungeon the dead caller participates in, clean up the whole
    dungeon (and its ActiveDungeon row) when the caller is the sole
    participant, else remove only the caller's participant row. -/
def start_dungeon_cleanup_dead (sender : Nat) (st : GameState) : GameState :=
  let my_participations := (st.dungeon_participants.filter
    (fun p => p.player_identity == sender)).map (fun p => p.dungeon_id)
  my_participations.foldl (fun st dungeon_id =>
    let participant_count := (st.dungeon_participants.filter
      (fun p => p.dungeon_id == dungeon_id)).length
    if participant_count ≤ 1 then
      let st := cleanup_dungeon dungeon_id st
      if (findByKey (fun d => d.id) dungeon_id st.active_dungeons).isSome then
        { st with active_dungeons :=
            deleteByKey (fun d => d.id) dungeon_id st.active_dungeons }
      else st
    else
      match (st.dungeon_participants.find? (fun p =>
          p.dungeon_id == dungeon_id && p.player_identity == sender)).map
          (fun p => p.id) with
      | some pid =>
          { st with dungeon_participants :=
              deleteByKey (fun p => p.id) pid st.dungeon_participants }
      | none => st) st

/-- The join block of start_dungeon (lib.rs 652-711): the latest
    ActiveDungeon (Rust max_by_key keeps the last maximum) is joined
    when it has other participants; none means fall through to the
    create path. -/
def start_dungeon_join (sender : Nat) (st : GameState) :
    Option (Except String GameState) :=
  let latest := st.active_dungeons.foldl (fun acc d =>
    match acc with
    | none => some d
    | some m => if d.id ≥ m.id then some d else some m) none
  match latest with
  | none => none
  | some existing =>
    let dungeon_id := existing.id
    let has_other_participants := st.dungeon_participants.any (fun p =>
      p.dungeon_id == dungeon_id && p.player_identity != sender)
    if has_other_participants then
      let already_joined := st.dungeon_participants.any (fun p =>
        p.dungeon_id == dungeon_id && p.player_identity == sender)
      let st :=
        if already_joined then st
        else
          { st with
              dungeon_participants := st.dungeon_participants ++
                [{ id := st.next_id, dungeon_id := dungeon_id,
                   player_identity := sender }],
              next_id := st.next_id + 1 }
      match findByKey (fun p => p.identity) sender st.players with
      | none => some (.error "Player not found")
      | some player_for_pos =>
          some (.ok (upsert_start_position sender dungeon_id player_for_pos st))
    else none

/-- The create block of start_dungeon (lib.rs 713-780). -/
def start_dungeon_create (M : FloatModel) (now_micros sender : Nat)
    (st : GameState) : Except String GameState :=
  match findByKey (fun p => p.identity) sender st.players with
  | none => .error "Player not found"
  | some player2 =>
    let seed := now_micros % U64
    let depth := player2.dungeons_cleared + 1
    let dungeon_id := st.next_id
    let newDungeon : ActiveDungeon :=
      { id := dungeon_id, owner_identity := sender, depth := depth,
        current_room := 0, total_rooms := 4, seed := seed }
    let st :=
      { st with active_dungeons := st.active_dungeons ++ [newDungeon],
                next_id := st.next_id + 1 }
    let newPart : DungeonParticipant :=
      { id := st.next_id, dungeon_id := dungeon_id, player_identity := sender }
    let st :=
      { st with dungeon_participants := st.dungeon_participants ++ [newPart],
                next_id := st.next_id + 1 }
    let st := spawn_enemies_for_room M dungeon_id 0 depth seed st
    let st := if st.enemy_tick_running then st
      else { st with enemy_tick_running := true }
    .ok (upsert_start_position sender dungeon_id player2 st)

/-- start_dungeon: restore hp to max_hp whenever hp < max_hp, clean up
    the dead caller's dungeons, then join the latest dungeon that has
    other participants or create a fresh one. -/
def start_dungeon (M : FloatModel) (now_micros : Nat) (sender : Nat)
    (st : GameState) : Except String GameState :=
  match findByKey (fun p => p.identity) sender st.players with
  | none => .error "Player not found"
  | some player =>
    let was_dead := player.hp ≤ 0
    let st :=
      if player.hp < player.max_hp then
        { st with players :=
            (updateByKey (fun p => p.identity) sender
              (fun _ => { player with hp := player.max_hp }) st.players) }
      else st
    let st := if was_dead then start_dungeon_cleanup_dead sender st else st
    match start_dungeon_join sender st with
    | some r => r
    | none => start_dungeon_create M now_micros sender st

-- ── complete_dungeon (lib.rs 840-881) ──

def complete_dungeon (sender dungeon_id : Nat) (client_gold client_xp : Option Nat)
    (st : GameState) : Except String GameState :=
  match findByKey (fun d => d.id) dungeon_id st.active_dungeons with
  | none => .error "Dungeon not found"
  | some dungeon =>
    if ¬ st.dungeon_participants.any (fun p =>
        p.dungeon_id == dungeon_id && p.player_identity == sender) then
      .error "Not a participant in this dungeon"
    else
      match findByKey (fun p => p.identity) sender st.players with
      | none => .error "Player not found"
      | some player =>
        let xp_reward := client_xp.getD (50 * dungeon.depth)
        let gold_reward := client_gold.getD (20 * dungeon.depth)
        let new_xp := player.xp + xp_reward
        let new_gold := player.gold + gold_reward
        let new_cleared := player.dungeons_cleared + 1
        let lv := check_level_up player.level new_xp player.max_hp player.atk player.defense
        let st :=
          { st with players :=
              (updateByKey (fun p => p.identity) sender
                (fun _ => { player with
                    xp := new_xp, gold := new_gold, dungeons_cleared := new_cleared,
                    level := lv.1, max_hp := lv.2.1, hp := lv.2.1,
                    atk := lv.2.2.1, defense := lv.2.2.2 })
                st.players) }
        let st := cleanup_dungeon dungeon_id st
        .ok { st with active_dungeons :=
            deleteByKey (fun d => d.id) dungeon_id st.active_dungeons }

-- ── Loot drop (lib.rs 2194-2276) ──

/-- drop_loot_for_dead_enemy: rarity rolled from the low decimal digits
    of the timestamp in microseconds; legendary drops are tagged with a
    pseudo-randomly chosen participant's class. -/
def drop_loot_for_dead_enemy (now_micros : Nat) (enemy_type : String)
    (dungeon_id room_index : Nat) (x y : Q) (atk max_hp : Int)
    (st : GameState) : GameState :=
  let is_boss := enemy_type = "boss" ∨ enemy_type = "raid_boss"
  let is_miniboss := enemy_type = "shield_knight"
  let roll : Q := ((now_micros % 100 : Nat) : Q) / 100
  let rarity : String :=
    if is_boss then
      if roll < 1/20 then "legendary"
      else if roll < 3/10 then "epic"
      else if roll < 4/5 then "rare"
      else "uncommon"
    else if is_miniboss then
      if roll < 1/10 then "epic"
      else if roll < 1/2 then "rare"
      else "uncommon"
    else
      if roll < 1/100 then "legendary"
      else if enemy_type = "necromancer" then "rare"
      else if enemy_type = "charger" then "uncommon"
      else "common"
  let class_tag : String :=
    if rarity = "legendary" then
      let participants := (st.dungeon_participants.filter
        (fun p => p.dungeon_id == dungeon_id)).map (fun p => p.player_identity)
      if participants.isEmpty then ""
      else
        let idx := now_micros % participants.length
        match findByKey (fun p => p.identity) (participants.getD idx 0) st.players with
        | some player => ",\"classReq\":\"" ++ player.player_class ++ "\""
        | none => ""
    else ""
  let item_json : String :=
    "\x7b\"type\":\"drop\",\"source\":\"" ++ enemy_type ++
    "\",\"atk_bonus\":" ++ toString (atk / 2) ++
    ",\"def_bonus\":" ++ toString (max_hp / 10) ++
    ",\"rarity\":\"" ++ rarity ++ "\"" ++ class_tag ++ "\x7d"
  let newLoot : LootDrop :=
    { id := st.next_id, dungeon_id := dungeon_id, room_index := room_index,
      x := x, y := y, item_data_json := item_json, rarity := rarity,
      picked_up := false }
  { st with loot_drops := st.loot_drops ++ [newLoot], next_id := st.next_id + 1 }

-- ── attack (lib.rs 938-1031) ──

/-- The damage block of attack (lib.rs 958-981): base max(atk, 1), the
    dps backstab bonus (x1.5 when the angular difference to the enemy's
    facing exceeds 2*pi/3), and the dps post-dash bonus (x1.25 while
    post_dash_bonus_timer > 0); each multiplication truncates back to
    i32. -/
def attack_damage (M : FloatModel) (player : Player) (pos : PlayerPosition)
    (enemy : DungeonEnemy) (ability : Option PlayerAbilityState) : Int :=
  let damage := max player.atk 1
  let damage :=
    if player.player_class = "dps" then
      let attack_angle := M.atan2Q (pos.y - enemy.y) (pos.x - enemy.x)
      let angle_diff := |attack_angle - enemy.facing_angle|
      let angle_diff := if angle_diff > M.piQ then 2 * M.piQ - angle_diff else angle_diff
      if angle_diff > M.piQ * 2 / 3 then truncQ ((damage : Q) * (3/2)) else damage
    else damage
  if player.player_class = "dps" then
    match ability with
    | some ability_state =>
        if ability_state.post_dash_bonus_timer > 0 then
          truncQ ((damage : Q) * (5/4))
        else damage
    | none => damage
  else damage

def attack (M : FloatModel) (now_micros sender dungeon_id target_enemy_id : Nat)
    (st : GameState) : Except String GameState :=
  match findByKey (fun p => p.identity) sender st.players with
  | none => .error "Player not found"
  | some player =>
  match findByKey (fun p => p.identity) sender st.player_positions with
  | none => .error "Position not found"
  | some pos =>
  match findByKey (fun e => e.id) target_enemy_id st.dungeon_enemies with
  | none => .error "Enemy not found"
  | some enemy =>
  if enemy.dungeon_id ≠ dungeon_id ∨ ¬ enemy.is_alive then .error "Invalid target"
  else
    let dx := pos.x - enemy.x
    let dy := pos.y - enemy.y
    if dx * dx + dy * dy > ATTACK_RANGE * ATTACK_RANGE then .error "Target out of range"
    else
      let damage := attack_damage M player pos enemy
        (findByKey (fun a => a.identity) sender st.player_ability_states)
      let new_hp := enemy.hp - damage
      let threat_mult : Int := if player.player_class = "tank" then 2 else 1
      let st := add_threat dungeon_id target_enemy_id sender (damage * threat_mult) st
      if new_hp ≤ 0 then
        let st := { st with dungeon_enemies :=
          (updateByKey (fun e => e.id) target_enemy_id
            (fun _ => { enemy with hp := 0, is_alive := false }) st.dungeon_enemies) }
        let st := drop_loot_for_dead_enemy now_micros enemy.enemy_type
          enemy.dungeon_id enemy.room_index enemy.x enemy.y enemy.atk enemy.max_hp st
        let xp_reward := get_enemy_xp enemy.enemy_type
        let new_xp := player.xp + xp_reward
        let lv := check_level_up player.level new_xp player.max_hp player.atk player.defense
        .ok { st with players :=
          (updateByKey (fun p => p.identity) sender
            (fun _ => { player with xp := new_xp, level := lv.1, max_hp := lv.2.1, atk := lv.2.2.1, defense := lv.2.2.2 })
            st.players) }
      else
        .ok { st with dungeon_enemies :=
          (updateByKey (fun e => e.id) target_enemy_id
            (fun _ => { enemy with hp := new_hp }) st.dungeon_enemies) }

-- ── pickup_loot (lib.rs 1245-1283) ──

def pickup_loot (sender loot_id : Nat) (st : GameState) : Except String GameState :=
  match findByKey (fun p => p.identity) sender st.player_positions with
  | none => .error "Position not found"
  | some pos =>
  match findByKey (fun l => l.id) loot_id st.loot_drops with
  | none => .error "Loot not found"
  | some loot =>
  if loot.picked_up then .error "Already picked up"
  else
    let dx := pos.x - loot.x
    let dy := pos.y - loot.y
    if dx * dx + dy * dy > LOOT_PICKUP_RANGE * LOOT_PICKUP_RANGE then
      .error "Too far away"
    else
      let item_data := loot.item_data_json
      let st := { st with loot_drops :=
        (updateByKey (fun l => l.id) loot_id
          (fun _ => { loot with picked_up := true }) st.loot_drops) }
      let newItem : InventoryItem :=
        { id := st.next_id, owner_identity := sender, item_data_json := item_data,
          equipped_slot := none, card_data_json := none }
      .ok { st with inventory_items := st.inventory_items ++ [newItem],
                    next_id := st.next_id + 1 }

-- ── send_chat (lib.rs 1390-1422) ──

/-- Byte length of one Unicode scalar value in UTF-8. -/
def utf8CharLen (c : Nat) : Nat :=
  if c < 128 then 1 else if c < 2048 then 2 else if c < 65536 then 3 else 4

/-- Rust String::len(): the UTF-8 byte length of the text. -/
def utf8Len (text : List Nat) : Nat := (text.map utf8CharLen).sum

/-- send_chat: participant gate, then the length gate text.len() > 100,
    which counts UTF-8 bytes, then the message insert. -/
def send_chat (sender dungeon_id : Nat) (text : List Nat) (now_ms : Nat)
    (st : GameState) : Except String GameState :=
  if ¬ st.dungeon_participants.any (fun p =>
      p.dungeon_id == dungeon_id && p.player_identity == sender) then
    .error "Not a participant in this dungeon"
  else if utf8Len text > 100 then
    .error "Message too long (max 100 characters)"
  else
    match findByKey (fun p => p.identity) sender st.players with
    | none => .error "Player not found"
    | some player =>
      let newMsg : PlayerMessage :=
        { id := st.next_id, dungeon_id := dungeon_id, sender_identity := sender,
          sender_name := player.name, message_type := "chat", content := text,
          created_at := now_ms }
      .ok { st with player_messages := st.player_messages ++ [newMsg],
                    next_id := st.next_id + 1 }

-- ── place_healing_zone (lib.rs 1081-1093, 1203-1239) ──

def ensure_ability_state (sender dungeon_id : Nat) (st : GameState) : GameState :=
  if (findByKey (fun a => a.identity) sender st.player_ability_states).isSome then st
  else
    { st with player_ability_states := st.player_ability_states ++
        [{ identity := sender, dungeon_id := dungeon_id, taunt_cd := 0,
           knockback_cd := 0, healing_zone_cd := 0, dash_cd := 0,
           post_dash_bonus_timer := 0 }] }

def place_healing_zone (sender dungeon_id : Nat) (x y : Q) (st : GameState) :
    Except String GameState :=
  match findByKey (fun p => p.identity) sender st.players with
  | none => .error "Player not found"
  | some player =>
  if player.player_class ≠ "healer" then .error "Only healers can place healing zones"
  else
    let st := ensure_ability_state sender dungeon_id st
    match findByKey (fun a => a.identity) sender st.player_ability_states with
    | none => .error "Ability state not found"
    | some state =>
    if state.healing_zone_cd > 0 then .error "Healing zone is on cooldown"
    else
      let newZone : ActiveHealingZone :=
        { id := st.next_id, dungeon_id := dungeon_id, owner_identity := sender,
          x := x, y := y, radius := 60, heal_per_tick := 5, duration_remaining := 8 }
      let st := { st with healing_zones := st.healing_zones ++ [newZone],
                          next_id := st.next_id + 1 }
      .ok { st with player_ability_states :=
        (updateByKey (fun a => a.identity) sender
          (fun _ => { state with healing_zone_cd := 15 }) st.player_ability_states) }

-- ── Raid matchmaking (lib.rs 3144-3203) ──

/-- One party member's enrolment (the body of the fold in
    process_raid_queues, lib.rs 3180-3200): if the Player row exists,
    insert a RaidParticipant carrying the player's class, delete the
    queue row, and update (never insert) the game-mode row. -/
def raid_add_member (raid_id : Nat) (st : GameState) (pid : Nat) : GameState :=
  match findByKey (fun p => p.identity) pid st.players with
  | none => st
  | some player =>
    let newPart : RaidParticipant :=
      { id := st.next_id, raid_id := raid_id, player_identity := pid,
        player_class := player.player_class, disconnected_at := none }
    let st := { st with raid_participants := st.raid_participants ++ [newPart],
                        next_id := st.next_id + 1 }
    let st := { st with raid_queues :=
        (deleteByKey (fun q => q.identity) pid st.raid_queues) }
    match findByKey (fun g => g.identity) pid st.player_game_modes with
    | some _ =>
        { st with player_game_modes :=
            (updateByKey (fun g => g.identity) pid
              (fun gm => { gm with mode := "raid", instance_id := some raid_id })
              st.player_game_modes) }
    | none => st

/-- process_raid_queues: with at least 1 tank, 1 healer and 2 dps
    queued, form the party from the first of each, create the raid
    instance, and enrol each of the four via raid_add_member. -/
def process_raid_queues (now : Nat) (st : GameState) : GameState :=
  let tanks := st.raid_queues.filter (fun q => q.player_class == "tank")
  let healers := st.raid_queues.filter (fun q => q.player_class == "healer")
  let dps := st.raid_queues.filter (fun q => q.player_class == "dps")
  match tanks, healers, dps with
  | t :: _, h :: _, d1 :: d2 :: _ =>
    let party := [t.identity, h.identity, d1.identity, d2.identity]
    let boss := get_enemy_stats "raid_boss" 1
    let raid_id := st.next_id
    let newRaid : RaidInstance :=
      { id := raid_id, started_at := now, boss_hp := boss.1, boss_max_hp := boss.1,
        boss_phase := 1, wipe_count := 0 }
    let st := { st with raid_instances := st.raid_instances ++ [newRaid],
                        next_id := st.next_id + 1 }
    party.foldl (raid_add_member raid_id) st
  | _, _, _ => st

-- ── Open world (lib.rs 2526-2607, 2796-2930) ──

def get_enemy_level_for_room (room_x room_y : Int) : Nat :=
  let center := OPEN_WORLD_SIZE / 2
  let dist_from_center : Nat := max (room_x - center).natAbs (room_y - center).natAbs
  if dist_from_center = 0 ∨ dist_from_center = 1 then 1 + dist_from_center
  else if dist_from_center = 2 then 5
  else if dist_from_center = 3 then 10
  else if dist_from_center = 4 then 15
  else 20

def is_hotspot_room (room_x room_y : Int) : Bool :=
  let center := OPEN_WORLD_SIZE / 2
  (room_x == center && (room_y == 1 || room_y == OPEN_WORLD_SIZE - 2)) ||
  (room_y == center && (room_x == 1 || room_x == OPEN_WORLD_SIZE - 2))

/-- attack_open_world (lib.rs 2526-2607). -/
def attack_open_world (now_ms sender enemy_id : Nat) (st : GameState) :
    Except String GameState :=
  match findByKey (fun p => p.identity) sender st.players with
  | none => .error "Player not found"
  | some player =>
  match findByKey (fun p => p.identity) sender st.open_world_players with
  | none => .error "Not in Open World"
  | some ow_player =>
  match findByKey (fun e => e.id) enemy_id st.open_world_enemies with
  | none => .error "Enemy not found"
  | some enemy =>
  if ¬ enemy.is_alive then .error "Enemy already dead"
  else if enemy.room_x ≠ ow_player.room_x ∨ enemy.room_y ≠ ow_player.room_y then
    .error "Enemy not in same room"
  else
    let dx := ow_player.x - enemy.x
    let dy := ow_player.y - enemy.y
    if dx * dx + dy * dy > ATTACK_RANGE * ATTACK_RANGE then .error "Target out of range"
    else
      let damage := max player.atk 1
      let new_hp := enemy.hp - damage
      let enemy_level := get_enemy_level_for_room enemy.room_x enemy.room_y
      let level_diff : Int := (enemy_level : Int) - (player.level : Int)
      let xp_mult : Q := if level_diff ≤ -5 then 1/4
        else if level_diff ≥ 5 then 3/2 else 1
      if new_hp ≤ 0 then
        let base_xp := get_enemy_xp enemy.enemy_type
        let scaled_xp : Nat := (truncQ ((base_xp : Q) * xp_mult)).toNat
        let is_hot := is_hotspot_room enemy.room_x enemy.room_y
        let respawn_delay := if is_hot then OPEN_WORLD_HOTSPOT_RESPAWN_MS
          else OPEN_WORLD_BASE_RESPAWN_MS
        let respawn_at := now_ms + respawn_delay
        let st := { st with open_world_enemies :=
          (updateByKey (fun e => e.id) enemy_id
            (fun _ => { enemy with hp := 0, is_alive := false, respawn_at := respawn_at })
            st.open_world_enemies) }
        let new_xp := player.xp + scaled_xp
        let lv := check_level_up player.level new_xp player.max_hp player.atk player.defense
        .ok { st with players :=
          (updateByKey (fun p => p.identity) sender
            (fun _ => { player with xp := new_xp, level := lv.1, max_hp := lv.2.1, atk := lv.2.2.1, defense := lv.2.2.2 })
            st.players) }
      else
        .ok { st with open_world_enemies :=
          (updateByKey (fun e => e.id) enemy_id
            (fun _ => { enemy with hp := new_hp }) st.open_world_enemies) }

/-- One open-world enemy's tick step (lib.rs 2805-2867): decrement the
    attack cooldown, chase or strike the nearest same-room player; an
    enemy with no target in its room is not written back at all. -/
def tick_one_ow_enemy (M : FloatModel) (players_ow : List OpenWorldPlayer)
    (st : GameState) (enemy : OpenWorldEnemy) : GameState :=
  let dt := AI_DT
  let e := enemy
  let e := if e.state_timer > 0 then { e with state_timer := e.state_timer - dt } else e
  let target := players_ow.foldl (fun acc p =>
    if p.instance_id ≠ e.instance_id ∨ p.room_x ≠ e.room_x ∨ p.room_y ≠ e.room_y then acc
    else match acc with
      | none => some p
      | some q =>
          if (p.x - e.x) * (p.x - e.x) + (p.y - e.y) * (p.y - e.y) <
             (q.x - e.x) * (q.x - e.x) + (q.y - e.y) * (q.y - e.y)
          then some p else acc) none
  match target with
  | none => st
  | some target =>
      let dx := target.x - e.x
      let dy := target.y - e.y
      let d2 := dx * dx + dy * dy
      let dist := M.sqrtQ d2
      let nx := if d2 > 1/100 then dx / dist else 0
      let ny := if d2 > 1/100 then dy / dist else 0
      let e := { e with facing_angle := M.atan2Q ny nx }
      let speed := get_enemy_speed e.enemy_type * dt * 60
      if d2 > ENEMY_ATTACK_RANGE * ENEMY_ATTACK_RANGE then
        let e := { e with
          x := clampQ (e.x + nx * speed) 20 (ROOM_W - 20),
          y := clampQ (e.y + ny * speed) 20 (ROOM_H - 20),
          target_x := target.x, target_y := target.y, ai_state := "chase" }
        { st with open_world_enemies :=
            (updateByKey (fun o => o.id) e.id (fun _ => e) st.open_world_enemies) }
      else
        if e.state_timer ≤ 0 then
          let e := { e with state_timer := 6/5, ai_state := "attack" }
          { st with
              players := meleeHit e.atk target.identity st.players,
              open_world_enemies :=
                (updateByKey (fun o => o.id) e.id (fun _ => e) st.open_world_enemies) }
        else
          { st with open_world_enemies :=
              (updateByKey (fun o => o.id) e.id (fun _ => e) st.open_world_enemies) }

def process_ow_enemies (M : FloatModel) (players_ow : List OpenWorldPlayer)
    (st : GameState) : List OpenWorldEnemy → GameState
  | [] => st
  | e :: rest =>
      if e.is_alive then
        process_ow_enemies M players_ow (tick_one_ow_enemy M players_ow st e) rest
      else process_ow_enemies M players_ow st rest

/-- tick_open_world (lib.rs 2796-2891): enemy AI, then respawn every
    dead enemy whose timer has expired. -/
def tick_open_world (M : FloatModel) (now_ms : Nat) (st : GameState) : GameState :=
  let players_ow := st.open_world_players
  let st := process_ow_enemies M players_ow st st.open_world_enemies
  { st with open_world_enemies := st.open_world_enemies.map (fun e =>
      if ¬ e.is_alive ∧ e.respawn_at > 0 ∧ e.respawn_at ≤ now_ms then
        let level := get_enemy_level_for_room e.room_x e.room_y
        let stats := get_enemy_stats e.enemy_type level
        { e with hp := stats.1, max_hp := stats.1, atk := stats.2,
                 is_alive := true, respawn_at := 0, ai_state := "chase",
                 state_timer := 0 }
      else e) }

-- ── Verified properties: predicates ──

/-- The spec's HP-bounds invariant for one Player row. -/
def PlayerInv (p : Player) : Prop := 0 ≤ p.hp ∧ p.hp ≤ p.max_hp

/-- HP bounds for every row of a player table. -/
def PlayersOk (l : List Player) : Prop := ∀ p ∈ l, PlayerInv p

/-- Reachable-state fact about healing zones: the only creation site
    (place_healing_zone) writes heal_per_tick = 5. -/
def ZonesOk (st : GameState) : Prop := ∀ z ∈ st.healing_zones, 0 ≤ z.heal_per_tick

/-- The enemy-clamping invariant of the spec. -/
def InBounds (e : DungeonEnemy) : Prop :=
  TILE_SIZE ≤ e.x ∧ e.x ≤ ROOM_W - TILE_SIZE ∧
  TILE_SIZE ≤ e.y ∧ e.y ≤ ROOM_H - TILE_SIZE

/-- State well-formedness for auto_inc ids: every enemy id is below the
    fresh-id counter. -/
def EnemyIdsOk (st : GameState) : Prop :=
  ∀ e ∈ st.dungeon_enemies, e.id < st.next_id

/-- The clamping invariant as weakened by the raid boss's unclamped add
    spawns: rows that existed before the tick (id below the old
    fresh-id counter) are in bounds; any out-of-bounds row is a
    skeleton add inserted during the tick (fresh id). -/
def C4Post (n0 : Nat) (st : GameState) : Prop :=
  n0 ≤ st.next_id ∧
  ∀ e ∈ st.dungeon_enemies,
    (e.id < n0 → InBounds e) ∧
    (¬ InBounds e → e.enemy_type = "skeleton" ∧ n0 ≤ e.id)

-- ── Raid-boss traces (for the enrage-once property) ──

/-- The per-tick inputs the raid boss receives from its surroundings:
    the hp the players' attacks have left it with, and the targeting
    data tick_one_enemy computes. -/
structure BossStep where
  newHp : Int
  target : PlayerPosition
  d2 : Q
  nx : Q
  ny : Q
  positions : List PlayerPosition
  players : List Player

/-- One boss tick: the boss's hp is set externally (attacks only ever
    lower it), then ai_raid_boss runs. -/
def bossTick (M : FloatModel) (e : DungeonEnemy) (s : BossStep) : DungeonEnemy :=
  (ai_raid_boss M { e with hp := s.newHp } s.target s.d2 s.nx s.ny AI_DT
    s.positions s.players).e

/-- Number of ticks of the trace on which the enrage branch (the one
    multiplying atk by 1.5) fires. -/
def enrageCount (M : FloatModel) (e : DungeonEnemy) : List BossStep → Nat
  | [] => 0
  | s :: rest =>
      (if e.boss_phase ≠ 3 ∧ phaseOf s.newHp e.max_hp = 3 then 1 else 0) +
      enrageCount M (bossTick M e s) rest

/-- The boss's externally-set hp never increases along the trace. -/
def NonIncFrom (h : Int) : List BossStep → Prop
  | [] => True
  | s :: rest => s.newHp ≤ h ∧ NonIncFrom s.newHp rest

instance (p : Player) : Decidable (PlayerInv p) := by
  unfold PlayerInv; exact inferInstance

instance (l : List Player) : Decidable (PlayersOk l) := by
  unfold PlayersOk; exact inferInstance

instance (st : GameState) : Decidable (ZonesOk st) := by
  unfold ZonesOk; exact inferInstance

instance (e : DungeonEnemy) : Decidable (InBounds e) := by
  unfold InBounds; exact inferInstance

instance (st : GameState) : Decidable (EnemyIdsOk st) := by
  unfold EnemyIdsOk; exact inferInstance

instance : DecidableEq (Except String GameState)
  | .error a, .error b => decidable_of_iff (a = b) (by simp)
  | .error _, .ok _ => .isFalse (by simp)
  | .ok _, .error _ => .isFalse (by simp)
  | .ok a, .ok b => decidable_of_iff (a = b) (by simp)

instance instDecNonIncFrom : (h : Int) → (l : List BossStep) → Decidable (NonIncFrom h l)
  | _, [] => .isTrue trivial
  | h, s :: rest =>
      have : Decidable (NonIncFrom s.newHp rest) := instDecNonIncFrom s.newHp rest
      decidable_of_iff (s.newHp ≤ h ∧ NonIncFrom s.newHp rest) (by simp [NonIncFrom])

-- ── Concrete instances used by witnesses and counterexamples ──

/-- A concrete interpretation of the abstracted f32 functions, used to
    evaluate the model at concrete inputs: pi is represented by 3, cos
    is 1 at 0 and -1 elsewhere and sin is 0, which agrees with the
    f32-rounded values of cos/sin at 0 and at pi (the only points any
    concrete evaluation below exercises); sqrt and atan2 are 0 (no
    evaluated comparison or claim depends on them). -/
def testModel : FloatModel :=
  { sqrtQ := fun _ => 0, cosQ := fun q => if q = 0 then 1 else -1,
    sinQ := fun _ => 0, atan2Q := fun _ _ => 0, piQ := 3 }

def emptyState : GameState :=
  { players := [], active_dungeons := [], dungeon_enemies := [],
    player_positions := [], loot_drops := [], inventory_items := [],
    dungeon_participants := [], player_messages := [], threat_entries := [],
    player_ability_states := [], healing_zones := [], player_game_modes := [],
    raid_queues := [], raid_instances := [], raid_participants := [],
    open_world_enemies := [], open_world_players := [],
    enemy_tick_running := false, next_id := 1 }

def basePlayer : Player :=
  { identity := 1, name := "P", player_class := "dps", level := 1, xp := 0,
    hp := 80, max_hp := 80, atk := 12, defense := 4, speed := 6, gold := 0,
    dungeons_cleared := 0 }

def basePosition : PlayerPosition :=
  { identity := 1, dungeon_id := 1, x := 270, y := 360, facing_x := 1,
    facing_y := 0, name := "P", level := 1, player_class := "dps",
    weapon_icon := "", armor_icon := "", accessory_icon := "" }

-- C1 witness: a slime in melee range of a 3-hp player; the attack
-- would take hp to -3 without the clamp.
def c1Player : Player := { basePlayer with hp := 3 }

def c1Slime : DungeonEnemy :=
  { id := 1, dungeon_id := 1, room_index := 0, enemy_type := "slime",
    x := 270, y := 360, hp := 40, max_hp := 40, atk := 8, is_alive := true,
    ai_state := "chase", state_timer := 0, target_x := 270, target_y := 360,
    facing_angle := 0, pack_id := none, current_target := none,
    is_taunted := false, taunted_by := none, taunt_timer := 0,
    is_boss := false, boss_phase := 0 }

def c1State : GameState :=
  { emptyState with players := [c1Player], dungeon_enemies := [c1Slime],
                    player_positions := [basePosition], next_id := 2 }

-- C2: one threat entry for the dungeon being cleaned up.
def c2Threat : ThreatEntry :=
  { id := 1, dungeon_id := 5, enemy_id := 2, player_identity := 3,
    threat_value := 10 }

def c2State : GameState :=
  { emptyState with threat_entries := [c2Threat], next_id := 10 }

-- C3: Carol the healer places a zone at (270, 360); an ally stands at
-- (270, 365) with hp = 50, max_hp = 100.
def c3Healer : Player :=
  { identity := 1, name := "Carol", player_class := "healer", level := 1,
    xp := 0, hp := 100, max_hp := 100, atk := 9, defense := 5, speed := 5,
    gold := 0, dungeons_cleared := 0 }

def c3Ally : Player := { basePlayer with identity := 2, hp := 50, max_hp := 100 }

def c3AllyPos : PlayerPosition := { basePosition with identity := 2, y := 365 }

def c3Base : GameState :=
  { emptyState with players := [c3Healer, c3Ally],
                    player_positions := [c3AllyPos] }

def c3Placed : GameState :=
  (place_healing_zone 1 1 270 360 c3Base).toOption.getD emptyState

-- C4: a phase-2 raid boss standing at the right wall with an expiring
-- add-spawn timer; the spawned add lands 50 px outside the wall.
def c4Boss : DungeonEnemy :=
  { id := 1, dungeon_id := 1, room_index := 3, enemy_type := "raid_boss",
    x := 504, y := 360, hp := 400, max_hp := 800, atk := 25, is_alive := true,
    ai_state := "phase2", state_timer := 1/20, target_x := 270, target_y := 360,
    facing_angle := 0, pack_id := none, current_target := none,
    is_taunted := false, taunted_by := none, taunt_timer := 0,
    is_boss := true, boss_phase := 2 }

def c4Pos : PlayerPosition := { basePosition with x := 504, y := 360 }

def c4State : GameState :=
  { emptyState with players := [basePlayer], dungeon_enemies := [c4Boss],
                    player_positions := [c4Pos], next_id := 2 }

-- C5: one unpicked loot drop in pickup range of the caller.
def c5Loot : LootDrop :=
  { id := 1, dungeon_id := 1, room_index := 0, x := 280, y := 360,
    item_data_json := "sword", rarity := "common", picked_up := false }

def c5State : GameState :=
  { emptyState with players := [basePlayer], player_positions := [basePosition],
                    loot_drops := [c5Loot], next_id := 2 }

-- C6: a dungeon participant sending 51 copies of U+00E9, a 51-character
-- message whose UTF-8 encoding is 102 bytes.
def c6Part : DungeonParticipant := { id := 1, dungeon_id := 1, player_identity := 1 }

def c6State : GameState :=
  { emptyState with
      players := [basePlayer],
      dungeon_participants := [c6Part],
      next_id := 2 }

def c6Text : List Nat := List.replicate 51 233

-- C7: a full 1/1/2 raid queue; the tank (identity 10) has no
-- PlayerGameMode row, the other three do.
def c7Tank : Player := { basePlayer with identity := 10, player_class := "tank" }
def c7Healer : Player := { basePlayer with identity := 11, player_class := "healer" }
def c7Dps1 : Player := { basePlayer with identity := 12 }
def c7Dps2 : Player := { basePlayer with identity := 13 }

def c7Queues : List RaidQueue :=
  [{ identity := 10, player_class := "tank", queued_at := 0 },
   { identity := 11, player_class := "healer", queued_at := 0 },
   { identity := 12, player_class := "dps", queued_at := 0 },
   { identity := 13, player_class := "dps", queued_at := 0 }]

def c7Modes : List PlayerGameMode :=
  [{ identity := 11, mode := "hub", instance_id := none },
   { identity := 12, mode := "hub", instance_id := none },
   { identity := 13, mode := "hub", instance_id := none }]

def c7State : GameState :=
  { emptyState with
      players := [c7Tank, c7Healer, c7Dps1, c7Dps2],
      raid_queues := c7Queues,
      player_game_modes := c7Modes,
      next_id := 1 }

-- C8 witness data: a boss crossing from phase 1 into phase 3.
def c8Boss : DungeonEnemy :=
  { c4Boss with hp := 800, max_hp := 800, boss_phase := 1, ai_state := "chase",
                state_timer := 1 }

def c8Step (h : Int) : BossStep :=
  { newHp := h, target := c4Pos, d2 := 0, nx := 0, ny := 0,
    positions := [c4Pos], players := [basePlayer] }

-- C8 extra witness data: bosses sitting at each side of a phase
-- boundary, and a three-step non-increasing hp trace.
def c8P2 : DungeonEnemy := { c8Boss with hp := 400 }

def c8P3 : DungeonEnemy := { c8Boss with hp := 200 }

def c8P3t : DungeonEnemy := { c8Boss with boss_phase := 3, state_timer := 0 }

def c8Trace : List BossStep := [c8Step 500, c8Step 200, c8Step 100]

-- C10: an alive but injured caller (hp 30 of 80) starting a dungeon.
def c10Player : Player := { basePlayer with hp := 30 }

def c10State : GameState := { emptyState with players := [c10Player] }

-- ════════════════════════ Theorems ════════════════════════

-- General fold / table lemmas

theorem foldl_pres {σ α : Type} (P : σ → Prop) (f : σ → α → σ)
    (l : List α) (hf : ∀ s a, a ∈ l → P s → P (f s a)) :
    ∀ s, P s → P (l.foldl f s) := by
  induction l with
  | nil => intro s h; exact h
  | cons a t ih =>
      intro s h
      exact ih (fun s b hb => hf s b (List.mem_cons_of_mem a hb))
        (f s a) (hf s a (List.mem_cons_self a t) h)

theorem findByKey_updateByKey {α : Type} (key : α → Nat) (k : Nat) (f : α → α)
    (l : List α) (hf : ∀ a, key a = k → key (f a) = k) :
    findByKey key k (updateByKey key k f l) = (findByKey key k l).map f := by
  induction l with
  | nil => rfl
  | cons a t ih =>
      by_cases h : key a = k
      · simp [findByKey, updateByKey, List.find?, h, hf a h]
      · simp only [findByKey, updateByKey, List.map_cons, List.find?, if_neg h]
        rw [show ((key a == k) = false) from beq_eq_false_iff_ne.mpr h]
        exact ih

theorem mem_updateByKey {α : Type} (key : α → Nat) (k : Nat) (f : α → α)
    (l : List α) (b : α) (hb : b ∈ updateByKey key k f l) :
    ∃ a ∈ l, b = if key a = k then f a else a := by
  simp only [updateByKey, List.mem_map] at hb
  obtain ⟨a, ha, rfl⟩ := hb
  exact ⟨a, ha, rfl⟩

-- HP-write lemmas

theorem setPlayerHp_ok (t : Nat) (f : Player → Int) (l : List Player)
    (hf : ∀ p, PlayerInv p → 0 ≤ f p ∧ f p ≤ p.max_hp) (h : PlayersOk l) :
    PlayersOk (setPlayerHp t f l) := by
  intro p hp
  simp only [setPlayerHp, List.mem_map] at hp
  obtain ⟨q, hq, rfl⟩ := hp
  by_cases hid : q.identity = t
  · rw [if_pos hid]
    exact hf q (h q hq)
  · rw [if_neg hid]
    exact h q hq

theorem meleeHit_ok (atkv : Int) (t : Nat) (l : List Player) (h : PlayersOk l) :
    PlayersOk (meleeHit atkv t l) := by
  apply setPlayerHp_ok _ _ _ _ h
  intro p hp
  obtain ⟨h0, h1⟩ := hp
  have hd : (1 : Int) ≤ max (atkv - p.defense / 2) 1 := le_max_right _ _
  constructor
  · exact le_max_right _ _
  · exact max_le (by omega) (by omega)

theorem aoeHit_ok (dmg : Int) (t : Nat) (l : List Player) (hd : 0 ≤ dmg)
    (h : PlayersOk l) : PlayersOk (aoeHit dmg t l) := by
  apply setPlayerHp_ok _ _ _ _ h
  intro p hp
  obtain ⟨h0, h1⟩ := hp
  constructor
  · exact le_max_right _ _
  · exact max_le (by omega) (by omega)

theorem healHit_ok (heal : Int) (t : Nat) (l : List Player) (hh : 0 ≤ heal)
    (h : PlayersOk l) :
    PlayersOk (setPlayerHp t (fun p => min (p.hp + heal) p.max_hp) l) := by
  apply setPlayerHp_ok _ _ _ _ h
  intro p hp
  obtain ⟨h0, h1⟩ := hp
  exact ⟨le_min (by omega) (by omega), min_le_right _ _⟩

theorem truncQ_nonneg (q : Q) (h : 0 ≤ q) : 0 ≤ truncQ q := by
  unfold truncQ
  rw [if_neg (not_lt.mpr h)]
  exact Rat.le_floor.mpr (by exact_mod_cast h)

-- ── C2: threat entries survive cleanup_dungeon ──

/-- C2 (counterexample): a concrete state with one ThreatEntry for
    dungeon 5 still holds that entry, untouched, after
    cleanup_dungeon(5); the claim that no ThreatEntry with
    dungeon_id = 5 remains is false at this input. -/
theorem c2_threat_cleanup_counterexample :
    (cleanup_dungeon 5 c2State).threat_entries = [c2Threat] ∧
    ¬ (∀ t ∈ (cleanup_dungeon 5 c2State).threat_entries, t.dungeon_id ≠ 5) := by
  with_unfolding_all decide

/-- C2 (amended): cleanup_dungeon(d) removes every DungeonEnemy,
    LootDrop, DungeonParticipant, PlayerPosition and PlayerMessage row
    of dungeon d, but leaves the threat_entry table completely
    unchanged, so ThreatEntry rows with dungeon_id = d remain. -/
theorem c2_threat_cleanup_amended (d : Nat) (st : GameState) :
    (cleanup_dungeon d st).threat_entries = st.threat_entries ∧
    (∀ e ∈ (cleanup_dungeon d st).dungeon_enemies, e.dungeon_id ≠ d) ∧
    (∀ l ∈ (cleanup_dungeon d st).loot_drops, l.dungeon_id ≠ d) ∧
    (∀ p ∈ (cleanup_dungeon d st).dungeon_participants, p.dungeon_id ≠ d) ∧
    (∀ p ∈ (cleanup_dungeon d st).player_positions, p.dungeon_id ≠ d) ∧
    (∀ m ∈ (cleanup_dungeon d st).player_messages, m.dungeon_id ≠ d) := by
  refine ⟨rfl, ?_, ?_, ?_, ?_, ?_⟩ <;>
    (intro r hr
     simp only [cleanup_dungeon, List.mem_filter, bne_iff_ne, ne_eq] at hr
     exact hr.2)

-- ── C9: check_level_up monotonicity ──

theorem check_level_up_step (level xp : Nat) (max_hp atk d : Int) :
    check_level_up level xp max_hp atk d =
      if xp ≥ level * BASE_XP_PER_LEVEL then
        check_level_up (level + 1) xp (max_hp + 10) (atk + 2) (d + 1)
      else (level, max_hp, atk, d) := by
  rw [check_level_up]

theorem check_level_up_ge (level xp : Nat) (max_hp atk d : Int) :
    level ≤ (check_level_up level xp max_hp atk d).1 ∧
    max_hp ≤ (check_level_up level xp max_hp atk d).2.1 ∧
    atk ≤ (check_level_up level xp max_hp atk d).2.2.1 ∧
    d ≤ (check_level_up level xp max_hp atk d).2.2.2 := by
  induction level, xp, max_hp, atk, d using check_level_up.induct with
  | case1 level xp max_hp atk d hcond ih =>
      rw [check_level_up_step, if_pos hcond]
      obtain ⟨h1, h2, h3, h4⟩ := ih
      exact ⟨by omega, by omega, by omega, by omega⟩
  | case2 level xp max_hp atk d hcond =>
      rw [check_level_up_step, if_neg hcond]
      exact ⟨le_refl _, le_refl _, le_refl _, le_refl _⟩

theorem check_level_up_mono (level xp1 xp2 : Nat) (max_hp atk d : Int)
    (h : xp1 ≤ xp2) :
    (check_level_up level xp1 max_hp atk d).1 ≤ (check_level_up level xp2 max_hp atk d).1 ∧
    (check_level_up level xp1 max_hp atk d).2.1 ≤ (check_level_up level xp2 max_hp atk d).2.1 ∧
    (check_level_up level xp1 max_hp atk d).2.2.1 ≤ (check_level_up level xp2 max_hp atk d).2.2.1 ∧
    (check_level_up level xp1 max_hp atk d).2.2.2 ≤ (check_level_up level xp2 max_hp atk d).2.2.2 := by
  induction level, xp2, max_hp, atk, d using check_level_up.induct generalizing xp1 with
  | case1 level xp2 max_hp atk d hcond ih =>
      rw [check_level_up_step level xp2, if_pos hcond]
      by_cases h1 : xp1 ≥ level * BASE_XP_PER_LEVEL
      · rw [check_level_up_step level xp1, if_pos h1]
        exact ih xp1 h
      · rw [check_level_up_step level xp1, if_neg h1]
        have hge := check_level_up_ge (level + 1) xp2 (max_hp + 10) (atk + 2) (d + 1)
        obtain ⟨g1, g2, g3, g4⟩ := hge
        exact ⟨by simpa using by omega, by simpa using by omega,
               by simpa using by omega, by simpa using by omega⟩
  | case2 level xp2 max_hp atk d hcond =>
      have h1 : ¬ xp1 ≥ level * BASE_XP_PER_LEVEL := by omega
      rw [check_level_up_step level xp1, if_neg h1,
          check_level_up_step level xp2, if_neg hcond]
      exact ⟨le_refl _, le_refl _, le_refl _, le_refl _⟩

/-- C9 (confirmed): check_level_up is monotone.  First conjunct: the
    returned level, max_hp, atk and def are at least the inputs.
    Second conjunct: a larger xp with the same starting stats never
    yields smaller outputs (componentwise).  Machine integers are
    modelled as unbounded. -/
theorem c9_check_level_up_monotone :
    (∀ (level xp : Nat) (max_hp atk d : Int),
       level ≤ (check_level_up level xp max_hp atk d).1 ∧
       max_hp ≤ (check_level_up level xp max_hp atk d).2.1 ∧
       atk ≤ (check_level_up level xp max_hp atk d).2.2.1 ∧
       d ≤ (check_level_up level xp max_hp atk d).2.2.2) ∧
    (∀ (level xp1 xp2 : Nat) (max_hp atk d : Int), xp1 ≤ xp2 →
       (check_level_up level xp1 max_hp atk d).1 ≤ (check_level_up level xp2 max_hp atk d).1 ∧
       (check_level_up level xp1 max_hp atk d).2.1 ≤ (check_level_up level xp2 max_hp atk d).2.1 ∧
       (check_level_up level xp1 max_hp atk d).2.2.1 ≤ (check_level_up level xp2 max_hp atk d).2.2.1 ∧
       (check_level_up level xp1 max_hp atk d).2.2.2 ≤ (check_level_up level xp2 max_hp atk d).2.2.2) :=
  ⟨check_level_up_ge, check_level_up_mono⟩

/-- C9 (witness): at level 1, 150 xp yields (2, 110, 12, 6) and 350 xp
    yields (4, 130, 16, 8): both componentwise at least the inputs, and
    the larger xp dominates. -/
theorem c9_check_level_up_monotone_witness :
    check_level_up 1 150 100 10 5 = (2, 110, 12, 6) ∧
    check_level_up 1 350 100 10 5 = (4, 130, 16, 8) ∧
    (150 ≤ 350 ∧
      (check_level_up 1 150 100 10 5).1 ≤ (check_level_up 1 350 100 10 5).1 ∧
      (check_level_up 1 150 100 10 5).2.1 ≤ (check_level_up 1 350 100 10 5).2.1 ∧
      (check_level_up 1 150 100 10 5).2.2.1 ≤ (check_level_up 1 350 100 10 5).2.2.1 ∧
      (check_level_up 1 150 100 10 5).2.2.2 ≤ (check_level_up 1 350 100 10 5).2.2.2) := by
  refine ⟨?_, ?_, by omega, (c9_check_level_up_monotone.2 1 150 350 100 10 5 (by omega)).1,
          (c9_check_level_up_monotone.2 1 150 350 100 10 5 (by omega)).2.1,
          (c9_check_level_up_monotone.2 1 150 350 100 10 5 (by omega)).2.2.1,
          (c9_check_level_up_monotone.2 1 150 350 100 10 5 (by omega)).2.2.2⟩ <;>
    simp [check_level_up_step, BASE_XP_PER_LEVEL]

-- ── C3: the healing zone's per-tick heal truncates to zero ──

set_option maxRecDepth 200000 in
/-- C3 (code bug witnessed): the zone placed by place_healing_zone
    carries radius 60, heal_per_tick 5, duration 8 s, yet the heal it
    applies each 50 ms tick is (5 * 0.05) as i32 = 0, so the ally at
    (270, 365) with hp = 50, max_hp = 100 still has hp = 50 after all
    160 ticks of the zone's 8-second lifetime, not about 90 as the
    claim's +5 HP/s accumulation would give. -/
theorem c3_healing_zone_never_heals :
    truncQ ((5 : Q) * AI_DT) = 0 ∧
    (place_healing_zone 1 1 270 360 c3Base).toOption.isSome = true ∧
    c3Placed.healing_zones.map
      (fun z => (z.radius, z.heal_per_tick, z.duration_remaining)) = [(60, 5, 8)] ∧
    (findByKey (fun p => p.identity) 2 c3Placed.players).map
      (fun p => (p.hp, p.max_hp)) = some (50, 100) ∧
    (findByKey (fun p => p.identity) 2
        ((fun s => tick_enemies testModel s)^[1] c3Placed).players).map
      (fun p => p.hp) = some 50 ∧
    (findByKey (fun p => p.identity) 2
        ((fun s => tick_enemies testModel s)^[160] c3Placed).players).map
      (fun p => p.hp) = some 50 := by
  with_unfolding_all decide

-- ── C6: send_chat limits bytes, not characters ──

/-- C6 (counterexample): a dungeon participant sends 51 characters
    (each U+00E9, two UTF-8 bytes); the message has at most 100
    characters, yet send_chat rejects it with the too-long error,
    because the source compares String::len(), a byte count. -/
theorem c6_send_chat_counterexample :
    c6Text.length = 51 ∧ c6Text.length ≤ 100 ∧
    c6State.dungeon_participants.any
      (fun p => p.dungeon_id == 1 && p.player_identity == 1) = true ∧
    send_chat 1 1 c6Text 0 c6State =
      .error "Message too long (max 100 characters)" := by
  with_unfolding_all decide

/-- C6 (amended): for a dungeon participant with a Player row, send_chat
    inserts the PlayerMessage exactly when the UTF-8 byte length of the
    message is at most 100, and returns the too-long error exactly when
    the byte length exceeds 100. -/
theorem c6_send_chat_amended (sender dungeon_id : Nat) (text : List Nat)
    (now_ms : Nat) (st : GameState) (player : Player)
    (hpart : st.dungeon_participants.any
      (fun p => p.dungeon_id == dungeon_id && p.player_identity == sender) = true)
    (hplayer : findByKey (fun p => p.identity) sender st.players = some player) :
    (utf8Len text ≤ 100 →
      send_chat sender dungeon_id text now_ms st =
        .ok { st with
                player_messages := st.player_messages ++
                  [⟨st.next_id, dungeon_id, sender, player.name, "chat", text, now_ms⟩],
                next_id := st.next_id + 1 }) ∧
    (utf8Len text > 100 →
      send_chat sender dungeon_id text now_ms st =
        .error "Message too long (max 100 characters)") := by
  constructor
  · intro hlen
    simp [send_chat, hpart, hplayer, Nat.not_lt.mpr hlen]
  · intro hlen
    simp [send_chat, hpart, hlen]

/-- C6 (amended, witness): the participant of the counterexample state
    sends the 3-character message "abc" (3 bytes) and it is inserted;
    the 51-character 102-byte message is rejected. -/
theorem c6_send_chat_amended_witness :
    utf8Len [97, 98, 99] ≤ 100 ∧
    send_chat 1 1 [97, 98, 99] 0 c6State =
      .ok { c6State with
              player_messages := c6State.player_messages ++
                [⟨c6State.next_id, 1, 1, basePlayer.name, "chat", [97, 98, 99], 0⟩],
              next_id := c6State.next_id + 1 } ∧
    (utf8Len c6Text > 100 ∧
      send_chat 1 1 c6Text 0 c6State =
        .error "Message too long (max 100 characters)") := by
  refine ⟨by with_unfolding_all decide, ?_, by with_unfolding_all decide, ?_⟩
  · exact (c6_send_chat_amended 1 1 [97, 98, 99] 0 c6State basePlayer
      (by with_unfolding_all decide) (by with_unfolding_all decide)).1
      (by with_unfolding_all decide)
  · exact (c6_send_chat_amended 1 1 c6Text 0 c6State basePlayer
      (by with_unfolding_all decide) (by with_unfolding_all decide)).2
      (by with_unfolding_all decide)

-- ── C7: raid formation and the game-mode gap ──

/-- C7 (counterexample): a full 1/1/2 queue forms a raid with four
    participants (one tank, one healer, two dps), but the tank
    (identity 10), who has no PlayerGameMode row, still has none
    afterwards: process_raid_queues updates game-mode rows without ever
    inserting them, so that participant's mode is not set to raid. -/
theorem c7_raid_game_mode_counterexample :
    ((process_raid_queues 1000 c7State).raid_participants.filter
      (fun rp => rp.raid_id == c7State.next_id)).map (fun rp => rp.player_class)
      = ["tank", "healer", "dps", "dps"] ∧
    (process_raid_queues 1000 c7State).raid_queues = [] ∧
    findByKey (fun g => g.identity) 10 c7State.player_game_modes = none ∧
    findByKey (fun g => g.identity) 10
      (process_raid_queues 1000 c7State).player_game_modes = none := by
  with_unfolding_all decide

-- ── C1 machinery: every player-HP write preserves the HP bounds ──

theorem ai_basic_melee_ok (M : FloatModel) (e : DungeonEnemy) (target : PlayerPosition)
    (d2 nx ny dt : Q) (players : List Player) (h : PlayersOk players) :
    PlayersOk (ai_basic_melee M e target d2 nx ny dt players).players := by
  unfold ai_basic_melee
  dsimp only
  split_ifs <;> first | exact meleeHit_ok _ _ _ h | exact h

theorem ai_charger_ok (M : FloatModel) (e : DungeonEnemy) (target : PlayerPosition)
    (dx dy d2 nx ny dt : Q) (players : List Player) (h : PlayersOk players) :
    PlayersOk (ai_charger M e target dx dy d2 nx ny dt players).players := by
  unfold ai_charger
  dsimp only
  split_ifs <;> first | exact meleeHit_ok _ _ _ h | exact h

theorem ai_wolf_ok (M : FloatModel) (e : DungeonEnemy) (target : PlayerPosition)
    (d2 dt : Q) (all_enemies : List DungeonEnemy) (players : List Player)
    (h : PlayersOk players) :
    PlayersOk (ai_wolf M e target d2 dt all_enemies players).players := by
  unfold ai_wolf
  dsimp only
  split_ifs <;> first | exact meleeHit_ok _ _ _ h | exact h

theorem ai_bomber_ok (M : FloatModel) (e : DungeonEnemy) (d2 nx ny dt : Q)
    (positions : List PlayerPosition) (players : List Player)
    (h : PlayersOk players) :
    PlayersOk (ai_bomber M e d2 nx ny dt positions players).players := by
  unfold ai_bomber
  dsimp only
  split_ifs <;>
    first
    | exact foldl_pres PlayersOk _ _
        (fun s a _ hs => by split_ifs <;> first | exact meleeHit_ok _ _ _ hs | exact hs)
        _ h
    | exact h

theorem ai_shield_knight_ok (M : FloatModel) (e : DungeonEnemy)
    (target : PlayerPosition) (d2 nx ny dt : Q) (players : List Player)
    (h : PlayersOk players) :
    PlayersOk (ai_shield_knight M e target d2 nx ny dt players).players := by
  unfold ai_shield_knight
  dsimp only
  split_ifs <;> first | exact meleeHit_ok _ _ _ h | exact h

theorem ai_archer_ok (M : FloatModel) (e : DungeonEnemy) (target : PlayerPosition)
    (d2 nx ny dt : Q) (players : List Player) (h : PlayersOk players) :
    PlayersOk (ai_archer M e target d2 nx ny dt players).players := by
  unfold ai_archer
  dsimp only
  split_ifs <;> first | exact meleeHit_ok _ _ _ h | exact h

theorem ai_raid_boss_act_ok (M : FloatModel) (e : DungeonEnemy)
    (target : PlayerPosition) (d2 nx ny dt : Q)
    (positions : List PlayerPosition) (players : List Player)
    (h : PlayersOk players) :
    PlayersOk (ai_raid_boss_act M e target d2 nx ny dt positions players).players := by
  unfold ai_raid_boss_act
  dsimp only
  split_ifs <;>
    first
    | exact foldl_pres PlayersOk _ _
        (fun s a _ hs => by
          split_ifs <;>
            first
            | exact aoeHit_ok _ _ _ (le_trans (by omega) (le_max_right _ 5)) hs
            | exact hs)
        _ h
    | exact meleeHit_ok _ _ _ h
    | exact h

theorem ai_raid_boss_ok (M : FloatModel) (e : DungeonEnemy)
    (target : PlayerPosition) (d2 nx ny dt : Q)
    (positions : List PlayerPosition) (players : List Player)
    (h : PlayersOk players) :
    PlayersOk (ai_raid_boss M e target d2 nx ny dt positions players).players :=
  ai_raid_boss_act_ok M _ target d2 nx ny dt positions players h

theorem tick_healing_zones_players_ok (dt : Q) (hdt : 0 ≤ dt) (st : GameState)
    (hz : ZonesOk st) (h : PlayersOk st.players) :
    PlayersOk (tick_healing_zones dt st).players := by
  unfold tick_healing_zones
  dsimp only
  refine foldl_pres (fun (s : GameState) => PlayersOk s.players) _ _ ?_ _
    (foldl_pres (fun (s : GameState) => PlayersOk s.players) _ _ ?_ _ h)
  · intro s pos _ hs
    dsimp only
    split_ifs with h1
    · exact hs
    · refine foldl_pres (fun (s : GameState) => PlayersOk s.players) _ _ ?_ _ hs
      intro s2 other _ hs2
      dsimp only
      split_ifs with h2 h3
      · exact hs2
      · exact healHit_ok _ _ _
          (truncQ_nonneg _ (by positivity)) hs2
      · exact hs2
  · intro s zone hzone hs
    dsimp only
    split_ifs with h1
    · exact hs
    · refine foldl_pres (fun (s : GameState) => PlayersOk s.players) _ _ ?_ _ hs
      intro s2 pos _ hs2
      dsimp only
      split_ifs with h2 h3
      · exact hs2
      · exact healHit_ok _ _ _
          (truncQ_nonneg _ (mul_nonneg (by exact_mod_cast hz zone hzone) hdt)) hs2
      · exact hs2

theorem dispatch_ai_ok (M : FloatModel) (e : DungeonEnemy) (target : PlayerPosition)
    (dx dy d2 nx ny dt speed_mult : Q) (positions : List PlayerPosition)
    (all_enemies : List DungeonEnemy) (players : List Player)
    (h : PlayersOk players) :
    PlayersOk (dispatch_ai M e target dx dy d2 nx ny dt speed_mult positions
      all_enemies players).players := by
  unfold dispatch_ai
  split_ifs <;>
    first
    | exact ai_charger_ok _ _ _ _ _ _ _ _ _ _ h
    | exact ai_wolf_ok _ _ _ _ _ _ _ h
    | exact h
    | exact ai_bomber_ok _ _ _ _ _ _ _ _ h
    | exact ai_shield_knight_ok _ _ _ _ _ _ _ _ h
    | exact ai_archer_ok _ _ _ _ _ _ _ _ h
    | exact ai_raid_boss_ok _ _ _ _ _ _ _ _ _ h
    | exact ai_basic_melee_ok _ _ _ _ _ _ _ _ h

theorem tick_one_enemy_players_ok (M : FloatModel) (positions : List PlayerPosition)
    (all_enemies : List DungeonEnemy) (st : GameState) (enemy : DungeonEnemy)
    (h : PlayersOk st.players) :
    PlayersOk (tick_one_enemy M positions all_enemies st enemy).players := by
  unfold tick_one_enemy
  dsimp only
  split
  · exact h
  · exact dispatch_ai_ok _ _ _ _ _ _ _ _ _ _ _ _ _ h

theorem process_enemies_cons (M : FloatModel) (positions : List PlayerPosition)
    (all_enemies : List DungeonEnemy) (st : GameState) (e : DungeonEnemy)
    (rest : List DungeonEnemy) :
    process_enemies M positions all_enemies st (e :: rest) =
      if e.is_alive then
        process_enemies M positions all_enemies
          (tick_one_enemy M positions all_enemies st e) rest
      else process_enemies M positions all_enemies st rest := rfl

theorem process_enemies_players_ok (M : FloatModel) (positions : List PlayerPosition)
    (all_enemies : List DungeonEnemy) :
    ∀ (l : List DungeonEnemy) (st : GameState), PlayersOk st.players →
      PlayersOk (process_enemies M positions all_enemies st l).players := by
  intro l
  induction l with
  | nil => intro st h; exact h
  | cons e rest ih =>
      intro st h
      rw [process_enemies_cons]
      split_ifs with ha
      · exact ih _ (tick_one_enemy_players_ok M positions all_enemies st e h)
      · exact ih _ h

theorem tick_enemies_players_ok (M : FloatModel) (st : GameState)
    (hz : ZonesOk st) (h : PlayersOk st.players) :
    PlayersOk (tick_enemies M st).players := by
  unfold tick_enemies
  dsimp only
  apply process_enemies_players_ok
  exact tick_healing_zones_players_ok AI_DT (by norm_num [AI_DT]) _ hz h

theorem cleanup_dungeon_players (d : Nat) (st : GameState) :
    (cleanup_dungeon d st).players = st.players := rfl

theorem add_threat_players (d e p : Nat) (a : Int) (st : GameState) :
    (add_threat d e p a st).players = st.players := by
  unfold add_threat
  split <;> rfl

theorem drop_loot_players (now : Nat) (et : String) (d r : Nat) (x y : Q)
    (atk mh : Int) (st : GameState) :
    (drop_loot_for_dead_enemy now et d r x y atk mh st).players = st.players := rfl

theorem findByKey_mem {α : Type} (key : α → Nat) (k : Nat) (l : List α) (a : α)
    (h : findByKey key k l = some a) : a ∈ l := List.mem_of_find?_eq_some h

theorem updateByKey_players_ok (k : Nat) (f : Player → Player) (l : List Player)
    (hf : ∀ p ∈ l, p.identity = k → PlayerInv (f p)) (h : PlayersOk l) :
    PlayersOk (updateByKey (fun p => p.identity) k f l) := by
  intro b hb
  obtain ⟨a, ha, rfl⟩ := mem_updateByKey _ _ _ _ _ hb
  by_cases hk : a.identity = k
  · rw [if_pos hk]; exact hf a ha hk
  · rw [if_neg hk]; exact h a ha

theorem attack_players_ok (M : FloatModel) (now sender dungeon_id eid : Nat)
    (st : GameState) (h : PlayersOk st.players) :
    ∀ st', attack M now sender dungeon_id eid st = .ok st' →
      PlayersOk st'.players := by
  intro st' hok
  unfold attack at hok
  cases hfp : findByKey (fun p => p.identity) sender st.players with
  | none => simp [hfp] at hok
  | some player =>
  cases hpp : findByKey (fun p => p.identity) sender st.player_positions with
  | none => simp [hfp, hpp] at hok
  | some pos =>
  cases hfe : findByKey (fun e => e.id) eid st.dungeon_enemies with
  | none => simp [hfp, hpp, hfe] at hok
  | some enemy =>
  simp only [hfp, hpp, hfe] at hok
  have hmem := findByKey_mem _ _ _ _ hfp
  have hinv := h player hmem
  split_ifs at hok <;>
    first
    | exact Except.noConfusion hok
    | (injection hok with hok
       subst hok
       first
       | (dsimp only
          rw [drop_loot_players]
          dsimp only
          rw [add_threat_players]
          apply updateByKey_players_ok _ _ _ _ h
          intro p _ _
          have hge := check_level_up_ge player.level
            (player.xp + get_enemy_xp enemy.enemy_type) player.max_hp player.atk player.defense
          obtain ⟨hi1, hi2⟩ := hinv
          exact ⟨hi1, le_trans hi2 hge.2.1⟩)
       | (dsimp only
          rw [add_threat_players]
          exact h))

theorem complete_dungeon_players_ok (sender dungeon_id : Nat)
    (cg cx : Option Nat) (st : GameState) (h : PlayersOk st.players) :
    ∀ st', complete_dungeon sender dungeon_id cg cx st = .ok st' →
      PlayersOk st'.players := by
  intro st' hok
  unfold complete_dungeon at hok
  cases hfd : findByKey (fun d => d.id) dungeon_id st.active_dungeons with
  | none => simp [hfd] at hok
  | some dungeon =>
  simp only [hfd] at hok
  cases hfp : findByKey (fun p => p.identity) sender st.players with
  | none => split_ifs at hok <;> simp [hfp] at hok
  | some player =>
  simp only [hfp] at hok
  have hmem := findByKey_mem _ _ _ _ hfp
  have hinv := h player hmem
  split_ifs at hok <;>
    first
    | exact Except.noConfusion hok
    | (injection hok with hok
       subst hok
       dsimp only
       rw [cleanup_dungeon_players]
       dsimp only
       apply updateByKey_players_ok _ _ _ _ h
       intro p _ _
       have hge := check_level_up_ge player.level
         (player.xp + cx.getD (50 * dungeon.depth)) player.max_hp player.atk player.defense
       obtain ⟨hi1, hi2⟩ := hinv
       exact ⟨le_trans (le_trans hi1 hi2) hge.2.1, le_refl _⟩)

theorem spawn_enemies_players (M : FloatModel) (d r depth seed : Nat)
    (st : GameState) :
    (spawn_enemies_for_room M d r depth seed st).players = st.players := by
  unfold spawn_enemies_for_room
  dsimp only
  refine foldl_pres (fun (acc : GameState × Nat) => acc.1.players = st.players)
    _ _ ?_ _ rfl
  intro s a _ hs
  exact hs

theorem upsert_start_position_players (sender d : Nat) (player : Player)
    (st : GameState) :
    (upsert_start_position sender d player st).players = st.players := by
  unfold upsert_start_position
  split <;> rfl

theorem start_dungeon_cleanup_dead_players (sender : Nat) (st : GameState) :
    (start_dungeon_cleanup_dead sender st).players = st.players := by
  unfold start_dungeon_cleanup_dead
  dsimp only
  refine foldl_pres (fun (s : GameState) => s.players = st.players) _ _ ?_ _ rfl
  intro s a _ hs
  dsimp only
  split_ifs with h1 h2
  · exact hs
  · exact hs
  · split <;> exact hs

theorem start_dungeon_join_players (sender : Nat) (st : GameState) (st' : GameState)
    (hj : start_dungeon_join sender st = some (.ok st')) :
    st'.players = st.players := by
  unfold start_dungeon_join at hj
  dsimp only at hj
  split at hj
  · exact Option.noConfusion hj
  · split_ifs at hj <;>
      first
      | exact Option.noConfusion hj
      | (split at hj <;>
          first
          | (injection hj with hj; exact Except.noConfusion hj)
          | (injection hj with hj
             injection hj with hj
             subst hj
             rw [upsert_start_position_players]))

theorem start_dungeon_create_players (M : FloatModel) (now sender : Nat)
    (st : GameState) (st' : GameState)
    (hc : start_dungeon_create M now sender st = .ok st') :
    st'.players = st.players := by
  unfold start_dungeon_create at hc
  split at hc
  · exact Except.noConfusion hc
  · dsimp only at hc
    injection hc with hc
    subst hc
    rw [upsert_start_position_players]
    split_ifs <;> rw [spawn_enemies_players] <;> rfl

theorem start_dungeon_players_eq (M : FloatModel) (now sender : Nat)
    (st : GameState) (player : Player)
    (hfp : findByKey (fun p => p.identity) sender st.players = some player) :
    ∀ st', start_dungeon M now sender st = .ok st' →
      st'.players =
        (if player.hp < player.max_hp then
          updateByKey (fun p => p.identity) sender
            (fun _ => { player with hp := player.max_hp }) st.players
        else st.players) := by
  intro st' hok
  unfold start_dungeon at hok
  simp only [hfp] at hok
  have hS1 : ∀ (s2 : GameState), s2.players =
      (if player.hp < player.max_hp then
        { st with players :=
            (updateByKey (fun p => p.identity) sender
              (fun _ => { player with hp := player.max_hp }) st.players) }
      else st).players →
      s2.players =
        (if player.hp < player.max_hp then
          updateByKey (fun p => p.identity) sender
            (fun _ => { player with hp := player.max_hp }) st.players
        else st.players) := by
    intro s2 h2
    rw [h2]
    split_ifs <;> rfl
  split at hok
  · -- join returned some r; hok : r = .ok st'
    rename_i r heq
    subst hok
    apply hS1
    rw [start_dungeon_join_players sender _ st' heq]
    split_ifs <;> first | rw [start_dungeon_cleanup_dead_players] | rfl
  · -- create path
    apply hS1
    rw [start_dungeon_create_players M now sender _ st' hok]
    split_ifs <;> first | rw [start_dungeon_cleanup_dead_players] | rfl

theorem start_dungeon_players_ok (M : FloatModel) (now sender : Nat)
    (st : GameState) (h : PlayersOk st.players) :
    ∀ st', start_dungeon M now sender st = .ok st' → PlayersOk st'.players := by
  intro st' hok
  cases hfp : findByKey (fun p => p.identity) sender st.players with
  | none =>
      unfold start_dungeon at hok
      simp [hfp] at hok
  | some player =>
      rw [start_dungeon_players_eq M now sender st player hfp st' hok]
      split_ifs with hc
      · apply updateByKey_players_ok _ _ _ _ h
        intro p _ _
        have hinv := h player (findByKey_mem _ _ _ _ hfp)
        exact ⟨le_trans hinv.1 hinv.2, le_refl _⟩
      · exact h

theorem attack_open_world_players_ok (now sender eid : Nat) (st : GameState)
    (h : PlayersOk st.players) :
    ∀ st', attack_open_world now sender eid st = .ok st' →
      PlayersOk st'.players := by
  intro st' hok
  unfold attack_open_world at hok
  cases hfp : findByKey (fun p => p.identity) sender st.players with
  | none => simp [hfp] at hok
  | some player =>
  cases hpp : findByKey (fun p => p.identity) sender st.open_world_players with
  | none => simp [hfp, hpp] at hok
  | some ow_player =>
  cases hfe : findByKey (fun e => e.id) eid st.open_world_enemies with
  | none => simp [hfp, hpp, hfe] at hok
  | some enemy =>
  simp only [hfp, hpp, hfe] at hok
  have hinv := h player (findByKey_mem _ _ _ _ hfp)
  split_ifs at hok <;>
    first
    | exact Except.noConfusion hok
    | (injection hok with hok
       subst hok
       first
       | (dsimp only
          apply updateByKey_players_ok _ _ _ _ h
          intro p _ _
          exact ⟨hinv.1, le_trans hinv.2 (check_level_up_ge _ _ _ _ _).2.1⟩)
       | exact h)

theorem tick_one_ow_enemy_players_ok (M : FloatModel)
    (players_ow : List OpenWorldPlayer) (st : GameState) (enemy : OpenWorldEnemy)
    (h : PlayersOk st.players) :
    PlayersOk (tick_one_ow_enemy M players_ow st enemy).players := by
  unfold tick_one_ow_enemy
  dsimp only
  split
  · exact h
  · split_ifs <;> first | exact meleeHit_ok _ _ _ h | exact h

theorem process_ow_enemies_cons (M : FloatModel)
    (players_ow : List OpenWorldPlayer) (st : GameState) (e : OpenWorldEnemy)
    (rest : List OpenWorldEnemy) :
    process_ow_enemies M players_ow st (e :: rest) =
      if e.is_alive then
        process_ow_enemies M players_ow (tick_one_ow_enemy M players_ow st e) rest
      else process_ow_enemies M players_ow st rest := rfl

theorem process_ow_enemies_players_ok (M : FloatModel)
    (players_ow : List OpenWorldPlayer) :
    ∀ (l : List OpenWorldEnemy) (st : GameState), PlayersOk st.players →
      PlayersOk (process_ow_enemies M players_ow st l).players := by
  intro l
  induction l with
  | nil => intro st h; exact h
  | cons e rest ih =>
      intro st h
      rw [process_ow_enemies_cons]
      split_ifs with ha
      · exact ih _ (tick_one_ow_enemy_players_ok M players_ow st e h)
      · exact ih _ h

theorem tick_open_world_players_ok (M : FloatModel) (now : Nat) (st : GameState)
    (h : PlayersOk st.players) :
    PlayersOk (tick_open_world M now st).players := by
  unfold tick_open_world
  dsimp only
  exact process_ow_enemies_players_ok M st.open_world_players
    st.open_world_enemies st h

/-- C1 (confirmed): starting from any state whose Player rows satisfy
    0 <= hp <= max_hp (and whose healing zones carry the nonnegative
    heal_per_tick that place_healing_zone always writes), every HP bound
    survives: the enemy tick (basic-melee / charger / wolf / bomber /
    shield-knight / archer attacks, bomber explosions, raid-boss melee
    and AoE, healing zones, the healer aura), the attack handler's
    level-ups, complete_dungeon's level-up and full heal, start_dungeon's
    restore, and the open-world attack handler and tick.  Every damage
    site clamps hp at 0 and every heal site caps hp at max_hp, which
    check_level_up only ever raises. -/
theorem c1_hp_bounds (M : FloatModel) (st : GameState)
    (hp : PlayersOk st.players) (hz : ZonesOk st) :
    PlayersOk (tick_enemies M st).players ∧
    (∀ now sender d e st', attack M now sender d e st = .ok st' →
      PlayersOk st'.players) ∧
    (∀ sender d cg cx st', complete_dungeon sender d cg cx st = .ok st' →
      PlayersOk st'.players) ∧
    (∀ now sender st', start_dungeon M now sender st = .ok st' →
      PlayersOk st'.players) ∧
    (∀ now sender e st', attack_open_world now sender e st = .ok st' →
      PlayersOk st'.players) ∧
    (∀ now, PlayersOk (tick_open_world M now st).players) :=
  ⟨tick_enemies_players_ok M st hz hp,
   fun now sender d e => attack_players_ok M now sender d e st hp,
   fun sender d cg cx => complete_dungeon_players_ok sender d cg cx st hp,
   fun now sender => start_dungeon_players_ok M now sender st hp,
   fun now sender e => attack_open_world_players_ok now sender e st hp,
   fun now => tick_open_world_players_ok M now st hp⟩

/-- C1 (witness): in the concrete state where a slime stands on a
    3-hp player (the slime's hit would otherwise take hp to -3), the
    tick leaves every player's hp within [0, max_hp]. -/
theorem c1_hp_bounds_witness :
    PlayersOk c1State.players ∧ ZonesOk c1State ∧
    PlayersOk (tick_enemies testModel c1State).players ∧
    (tick_enemies testModel c1State).players.map (fun p => p.hp) = [0] :=
  ⟨by with_unfolding_all decide, by with_unfolding_all decide,
   (c1_hp_bounds testModel c1State (by with_unfolding_all decide)
     (by with_unfolding_all decide)).1,
   by with_unfolding_all decide⟩

-- ── C4 machinery: room-bounds clamping ──

theorem clampQ_bounds (v lo hi : Q) (h : lo ≤ hi) :
    lo ≤ clampQ v lo hi ∧ clampQ v lo hi ≤ hi := by
  unfold clampQ
  exact ⟨le_min (le_max_right _ _) h, min_le_right _ _⟩

theorem tile_le_roomw : TILE_SIZE ≤ ROOM_W - TILE_SIZE := by
  norm_num [TILE_SIZE, ROOM_W]

theorem tile_le_roomh : TILE_SIZE ≤ ROOM_H - TILE_SIZE := by
  norm_num [TILE_SIZE, ROOM_H]

theorem ai_basic_melee_inserted (M : FloatModel) (e : DungeonEnemy)
    (target : PlayerPosition) (d2 nx ny dt : Q) (players : List Player) :
    (ai_basic_melee M e target d2 nx ny dt players).inserted = [] := by
  unfold ai_basic_melee
  dsimp only
  split_ifs <;> rfl

theorem ai_charger_inserted (M : FloatModel) (e : DungeonEnemy)
    (target : PlayerPosition) (dx dy d2 nx ny dt : Q) (players : List Player) :
    (ai_charger M e target dx dy d2 nx ny dt players).inserted = [] := by
  unfold ai_charger
  dsimp only
  split_ifs <;> rfl

theorem ai_wolf_inserted (M : FloatModel) (e : DungeonEnemy)
    (target : PlayerPosition) (d2 dt : Q) (all_enemies : List DungeonEnemy)
    (players : List Player) :
    (ai_wolf M e target d2 dt all_enemies players).inserted = [] := by
  unfold ai_wolf
  dsimp only
  split_ifs <;> rfl

theorem ai_bomber_inserted (M : FloatModel) (e : DungeonEnemy) (d2 nx ny dt : Q)
    (positions : List PlayerPosition) (players : List Player) :
    (ai_bomber M e d2 nx ny dt positions players).inserted = [] := by
  unfold ai_bomber
  dsimp only
  split_ifs <;> rfl

theorem ai_shield_knight_inserted (M : FloatModel) (e : DungeonEnemy)
    (target : PlayerPosition) (d2 nx ny dt : Q) (players : List Player) :
    (ai_shield_knight M e target d2 nx ny dt players).inserted = [] := by
  unfold ai_shield_knight
  dsimp only
  split_ifs <;> rfl

theorem ai_archer_inserted (M : FloatModel) (e : DungeonEnemy)
    (target : PlayerPosition) (d2 nx ny dt : Q) (players : List Player) :
    (ai_archer M e target d2 nx ny dt players).inserted = [] := by
  unfold ai_archer
  dsimp only
  split_ifs <;> rfl

theorem ai_raid_boss_inserted (M : FloatModel) (e : DungeonEnemy)
    (target : PlayerPosition) (d2 nx ny dt : Q)
    (positions : List PlayerPosition) (players : List Player) :
    ∀ a ∈ (ai_raid_boss M e target d2 nx ny dt positions players).inserted,
      a.enemy_type = "skeleton" := by
  unfold ai_raid_boss ai_raid_boss_act
  dsimp only
  split_ifs <;>
    (intro a ha
     first
     | exact absurd ha (List.not_mem_nil a)
     | (rcases List.mem_cons.mp ha with rfl | ha2
        · rfl
        · rcases List.mem_cons.mp ha2 with rfl | ha3
          · rfl
          · exact absurd ha3 (List.not_mem_nil a)))

theorem dispatch_ai_inserted (M : FloatModel) (e : DungeonEnemy)
    (target : PlayerPosition) (dx dy d2 nx ny dt sm : Q)
    (positions : List PlayerPosition) (all_enemies : List DungeonEnemy)
    (players : List Player) :
    ∀ a ∈ (dispatch_ai M e target dx dy d2 nx ny dt sm positions all_enemies
      players).inserted, a.enemy_type = "skeleton" := by
  unfold dispatch_ai
  split_ifs <;>
    first
    | (rw [ai_basic_melee_inserted]; intro a ha; exact absurd ha (List.not_mem_nil a))
    | (rw [ai_charger_inserted]; intro a ha; exact absurd ha (List.not_mem_nil a))
    | (rw [ai_wolf_inserted]; intro a ha; exact absurd ha (List.not_mem_nil a))
    | (rw [ai_bomber_inserted]; intro a ha; exact absurd ha (List.not_mem_nil a))
    | (rw [ai_shield_knight_inserted]; intro a ha; exact absurd ha (List.not_mem_nil a))
    | (rw [ai_archer_inserted]; intro a ha; exact absurd ha (List.not_mem_nil a))
    | exact ai_raid_boss_inserted M _ target d2 nx ny dt positions players
    | (intro a ha; exact absurd ha (List.not_mem_nil a))

theorem assign_ids_general (l : List DungeonEnemy) :
    ∀ (acc : List DungeonEnemy × Nat),
      acc.2 ≤ (l.foldl (fun (acc : List DungeonEnemy × Nat) a =>
        (acc.1 ++ [{ a with id := acc.2 }], acc.2 + 1)) acc).2 ∧
      ∀ b ∈ (l.foldl (fun (acc : List DungeonEnemy × Nat) a =>
        (acc.1 ++ [{ a with id := acc.2 }], acc.2 + 1)) acc).1,
        b ∈ acc.1 ∨ (acc.2 ≤ b.id ∧ ∃ a ∈ l, b.enemy_type = a.enemy_type) := by
  induction l with
  | nil =>
      intro acc
      exact ⟨le_refl _, fun b hb => Or.inl hb⟩
  | cons a t ih =>
      intro acc
      obtain ⟨ih1, ih2⟩ := ih (acc.1 ++ [{ a with id := acc.2 }], acc.2 + 1)
      constructor
      · exact le_trans (by omega) ih1
      · intro b hb
        rcases ih2 b hb with hmem | ⟨hle, c, hc, hty⟩
        · rcases List.mem_append.mp hmem with h1 | h2
          · exact Or.inl h1
          · rcases List.mem_cons.mp h2 with rfl | h3
            · exact Or.inr ⟨le_refl _, a, List.mem_cons_self a t, rfl⟩
            · exact absurd h3 (List.not_mem_nil b)
        · exact Or.inr ⟨by omega, c, List.mem_cons_of_mem a hc, hty⟩

theorem tick_healing_zones_enemies (dt : Q) (st : GameState) :
    (tick_healing_zones dt st).dungeon_enemies = st.dungeon_enemies ∧
    (tick_healing_zones dt st).next_id = st.next_id := by
  unfold tick_healing_zones
  dsimp only
  refine foldl_pres (fun (s : GameState) =>
      s.dungeon_enemies = st.dungeon_enemies ∧ s.next_id = st.next_id) _ _ ?_ _
    (foldl_pres (fun (s : GameState) =>
      s.dungeon_enemies = st.dungeon_enemies ∧ s.next_id = st.next_id) _ _ ?_ _
      ⟨rfl, rfl⟩)
  · intro s pos _ hs
    dsimp only
    split_ifs with h1
    · exact hs
    · refine foldl_pres (fun (s : GameState) =>
          s.dungeon_enemies = st.dungeon_enemies ∧ s.next_id = st.next_id) _ _ ?_ _ hs
      intro s2 other _ hs2
      dsimp only
      split_ifs <;> exact hs2
  · intro s zone _ hs
    dsimp only
    split_ifs with h1
    · exact hs
    · refine foldl_pres (fun (s : GameState) =>
          s.dungeon_enemies = st.dungeon_enemies ∧ s.next_id = st.next_id) _ _ ?_ _ hs
      intro s2 pos _ hs2
      dsimp only
      split_ifs <;> exact hs2

theorem mem_updateByKey_cases {α : Type} (key : α → Nat) (k : Nat) (f : α → α)
    (l : List α) (b : α) (hb : b ∈ updateByKey key k f l) :
    (∃ a ∈ l, b = f a) ∨ b ∈ l := by
  obtain ⟨a, ha, hb⟩ := mem_updateByKey key k f l b hb
  by_cases h : key a = k
  · rw [if_pos h] at hb
    exact Or.inl ⟨a, ha, hb⟩
  · rw [if_neg h] at hb
    exact Or.inr (hb ▸ ha)

theorem tick_one_enemy_c4 (M : FloatModel) (positions : List PlayerPosition)
    (all_enemies : List DungeonEnemy) (st : GameState) (enemy : DungeonEnemy)
    (n0 : Nat) (hsnap : InBounds enemy) (hn : n0 ≤ st.next_id)
    (hbound : ∀ e ∈ st.dungeon_enemies,
      (e.id < n0 → InBounds e) ∧
      (¬ InBounds e → e.enemy_type = "skeleton" ∧ n0 ≤ e.id)) :
    n0 ≤ (tick_one_enemy M positions all_enemies st enemy).next_id ∧
    ∀ e ∈ (tick_one_enemy M positions all_enemies st enemy).dungeon_enemies,
      (e.id < n0 → InBounds e) ∧
      (¬ InBounds e → e.enemy_type = "skeleton" ∧ n0 ≤ e.id) := by
  unfold tick_one_enemy
  dsimp only
  split
  · refine ⟨hn, ?_⟩
    intro b hb
    rcases mem_updateByKey_cases _ _ _ _ _ hb with ⟨a, ha, rfl⟩ | hmem
    · constructor
      · intro _
        split_ifs <;> exact hsnap
      · intro hnb
        exact absurd (by split_ifs <;> exact hsnap) hnb
    · exact hbound b hmem
  · dsimp only
    refine ⟨le_trans hn (assign_ids_general _ ([], st.next_id)).1, ?_⟩
    intro b hb
    rcases List.mem_append.mp hb with h1 | h2
    · rcases mem_updateByKey_cases _ _ _ _ _ h1 with ⟨a, ha, rfl⟩ | hmem
      · constructor
        · intro _
          exact ⟨(clampQ_bounds _ _ _ tile_le_roomw).1,
            (clampQ_bounds _ _ _ tile_le_roomw).2,
            (clampQ_bounds _ _ _ tile_le_roomh).1,
            (clampQ_bounds _ _ _ tile_le_roomh).2⟩
        · intro hnb
          exact absurd ⟨(clampQ_bounds _ _ _ tile_le_roomw).1,
            (clampQ_bounds _ _ _ tile_le_roomw).2,
            (clampQ_bounds _ _ _ tile_le_roomh).1,
            (clampQ_bounds _ _ _ tile_le_roomh).2⟩ hnb
      · exact hbound b hmem
    · rcases (assign_ids_general _ _).2 b h2 with hmem | ⟨hle, c, hc, hty⟩
      · exact absurd hmem (List.not_mem_nil b)
      · refine ⟨fun hlt => absurd hlt (not_lt.mpr (le_trans hn hle)),
          fun _ => ⟨?_, le_trans hn hle⟩⟩
        exact hty.trans (dispatch_ai_inserted _ _ _ _ _ _ _ _ _ _ _ _ _ c hc)

theorem process_enemies_c4 (M : FloatModel) (positions : List PlayerPosition)
    (all_enemies : List DungeonEnemy) (n0 : Nat) :
    ∀ (l : List DungeonEnemy) (st : GameState),
      (∀ e ∈ l, InBounds e) →
      n0 ≤ st.next_id →
      (∀ e ∈ st.dungeon_enemies,
        (e.id < n0 → InBounds e) ∧
        (¬ InBounds e → e.enemy_type = "skeleton" ∧ n0 ≤ e.id)) →
      n0 ≤ (process_enemies M positions all_enemies st l).next_id ∧
      ∀ e ∈ (process_enemies M positions all_enemies st l).dungeon_enemies,
        (e.id < n0 → InBounds e) ∧
        (¬ InBounds e → e.enemy_type = "skeleton" ∧ n0 ≤ e.id) := by
  intro l
  induction l with
  | nil => intro st _ hn hb; exact ⟨hn, hb⟩
  | cons e rest ih =>
      intro st hl hn hb
      rw [process_enemies_cons]
      split_ifs with ha
      · obtain ⟨h1, h2⟩ := tick_one_enemy_c4 M positions all_enemies st e n0
          (hl e (List.mem_cons_self e rest)) hn hb
        exact ih _ (fun x hx => hl x (List.mem_cons_of_mem e hx)) h1 h2
      · exact ih _ (fun x hx => hl x (List.mem_cons_of_mem e hx)) hn hb

/-- C4: COUNTEREXAMPLE.  A raid boss in phase 2 standing at the clamp
    boundary x = 504 spawns a skeleton add at x + 50 = 554 >
    ROOM_W - TILE_SIZE, and the add is inserted without being clamped:
    a state whose enemies are all in bounds ticks to one with an
    out-of-bounds enemy row. -/
theorem c4_enemy_clamp_counterexample :
    (∀ e ∈ c4State.dungeon_enemies, InBounds e) ∧
    ¬ (∀ e ∈ (tick_enemies testModel c4State).dungeon_enemies, InBounds e) := by
  with_unfolding_all decide

/-- C4 (amended): after tick_enemies, every enemy row that existed
    before the tick (id below the old fresh-id counter) is clamped into
    [TILE, ROOM_W-TILE] x [TILE, ROOM_H-TILE]; any out-of-bounds row is
    a skeleton add the raid boss inserted during this same tick,
    carrying a fresh id.  The spec's claim that the bound also covers
    the phase-2 adds inserted in the same tick is what fails. -/
theorem c4_enemy_clamp_amended (M : FloatModel) (st : GameState)
    (hb : ∀ e ∈ st.dungeon_enemies, InBounds e) :
    ∀ e ∈ (tick_enemies M st).dungeon_enemies,
      (e.id < st.next_id → InBounds e) ∧
      (¬ InBounds e → e.enemy_type = "skeleton" ∧ st.next_id ≤ e.id) := by
  unfold tick_enemies
  dsimp only
  obtain ⟨hze, hzn⟩ := tick_healing_zones_enemies AI_DT
    { st with player_ability_states := tick_ability_cooldowns AI_DT st.player_ability_states }
  refine (process_enemies_c4 M st.player_positions st.dungeon_enemies st.next_id
    st.dungeon_enemies _ hb (by rw [hzn]) ?_).2
  rw [hze]
  intro e he
  exact ⟨fun _ => hb e he, fun hnb => absurd (hb e he) hnb⟩

set_option maxRecDepth 200000 in
theorem c4_enemy_clamp_amended_witness :
    InBounds ((tick_enemies testModel c4State).dungeon_enemies.getD 0 c4Boss) ∧
    ((tick_enemies testModel c4State).dungeon_enemies.getD 0 c4Boss).id <
      c4State.next_id ∧
    ¬ InBounds ((tick_enemies testModel c4State).dungeon_enemies.getD 1 c4Boss) ∧
    ((tick_enemies testModel c4State).dungeon_enemies.getD 1 c4Boss).enemy_type =
      "skeleton" ∧
    c4State.next_id ≤
      ((tick_enemies testModel c4State).dungeon_enemies.getD 1 c4Boss).id := by
  have thm := c4_enemy_clamp_amended testModel c4State (by with_unfolding_all decide)
  refine ⟨?_, by with_unfolding_all decide, by with_unfolding_all decide, ?_, ?_⟩
  · exact (thm _ (by with_unfolding_all decide)).1 (by with_unfolding_all decide)
  · exact ((thm _ (by with_unfolding_all decide)).2 (by with_unfolding_all decide)).1
  · exact ((thm _ (by with_unfolding_all decide)).2 (by with_unfolding_all decide)).2

theorem findByKey_eq_key {α : Type} (key : α → Nat) (k : Nat) (l : List α) (a : α)
    (h : findByKey key k l = some a) : key a = k := by
  unfold findByKey at h
  have h3 := List.find?_some h
  exact eq_of_beq h3

/-- C5: pickup_loot is idempotent.  For a positioned caller within
    pickup range of a not-yet-picked-up loot drop, the first call
    succeeds, appends exactly one InventoryItem carrying the loot's
    item data, and marks the drop picked_up; calling again on the
    resulting state returns the "Already picked up" error (and as a
    rejected transaction mutates nothing). -/
theorem c5_pickup_idempotent (sender loot_id : Nat) (st : GameState)
    (pos : PlayerPosition) (loot : LootDrop)
    (hpos : findByKey (fun p => p.identity) sender st.player_positions = some pos)
    (hloot : findByKey (fun l => l.id) loot_id st.loot_drops = some loot)
    (hnp : loot.picked_up = false)
    (hrange : (pos.x - loot.x) * (pos.x - loot.x) +
      (pos.y - loot.y) * (pos.y - loot.y) ≤
      LOOT_PICKUP_RANGE * LOOT_PICKUP_RANGE) :
    ∃ st1, pickup_loot sender loot_id st = .ok st1 ∧
      st1.inventory_items = st.inventory_items ++
        [{ id := st.next_id, owner_identity := sender,
           item_data_json := loot.item_data_json,
           equipped_slot := none, card_data_json := none }] ∧
      findByKey (fun l => l.id) loot_id st1.loot_drops =
        some { loot with picked_up := true } ∧
      pickup_loot sender loot_id st1 = .error "Already picked up" := by
  have hkey : loot.id = loot_id := findByKey_eq_key _ _ _ _ hloot
  have h2 := findByKey_updateByKey (fun (l : LootDrop) => l.id) loot_id
    (fun _ => { loot with picked_up := true }) st.loot_drops
    (fun a _ => hkey)
  refine ⟨{ st with
      loot_drops :=
        (updateByKey (fun (l : LootDrop) => l.id) loot_id
          (fun _ => { loot with picked_up := true }) st.loot_drops),
      inventory_items := st.inventory_items ++
        [{ id := st.next_id, owner_identity := sender,
           item_data_json := loot.item_data_json,
           equipped_slot := none, card_data_json := none }],
      next_id := st.next_id + 1 }, ?ok, rfl, ?find, ?second⟩
  case ok =>
    unfold pickup_loot
    rw [hpos]
    dsimp only
    rw [hloot]
    dsimp only
    rw [if_neg (by simp [hnp]), if_neg (not_lt.mpr hrange)]
  case find =>
    dsimp only
    rw [h2, hloot]
    rfl
  case second =>
    unfold pickup_loot
    dsimp only
    rw [hpos]
    dsimp only
    rw [h2, hloot]
    rfl

theorem c5_pickup_idempotent_witness :
    pickup_loot 1 1 c5State =
      .ok ((pickup_loot 1 1 c5State).toOption.getD emptyState) ∧
    ((pickup_loot 1 1 c5State).toOption.getD emptyState).inventory_items =
      c5State.inventory_items ++
        [{ id := c5State.next_id, owner_identity := 1,
           item_data_json := c5Loot.item_data_json,
           equipped_slot := none, card_data_json := none }] ∧
    findByKey (fun l => l.id) 1
      ((pickup_loot 1 1 c5State).toOption.getD emptyState).loot_drops =
      some { c5Loot with picked_up := true } ∧
    pickup_loot 1 1 ((pickup_loot 1 1 c5State).toOption.getD emptyState) =
      .error "Already picked up" := by
  obtain ⟨st1, h1, h2, h3, h4⟩ :=
    c5_pickup_idempotent 1 1 c5State basePosition c5Loot
      (by with_unfolding_all decide) (by with_unfolding_all decide) rfl
      (by with_unfolding_all decide)
  have hst : (pickup_loot 1 1 c5State).toOption.getD emptyState = st1 := by
    rw [h1]
    rfl
  refine ⟨?_, ?_, ?_, ?_⟩ <;> rw [hst]
  · exact h1
  · exact h2
  · exact h3
  · exact h4

theorem findByKey_updateByKey_none {α : Type} (key : α → Nat) (k k2 : Nat)
    (f : α → α) (hf : ∀ a, key (f a) = key a) (l : List α)
    (h : findByKey key k l = none) :
    findByKey key k (updateByKey key k2 f l) = none := by
  unfold findByKey at h ⊢
  rw [List.find?_eq_none] at h ⊢
  intro b hb
  obtain ⟨a, ha, hab⟩ := mem_updateByKey key k2 f l b hb
  have hkb : key b = key a := by
    by_cases hc : key a = k2
    · rw [if_pos hc] at hab
      rw [hab]
      exact hf a
    · rw [if_neg hc] at hab
      rw [hab]
  intro hbe
  exact h a ha (by rw [← hkb]; exact hbe)

theorem raid_add_member_found (raid_id : Nat) (st : GameState) (pid : Nat)
    (player : Player)
    (hp : findByKey (fun p => p.identity) pid st.players = some player) :
    (raid_add_member raid_id st pid).raid_participants =
      st.raid_participants ++
        [{ id := st.next_id, raid_id := raid_id, player_identity := pid,
           player_class := player.player_class, disconnected_at := none }] ∧
    (raid_add_member raid_id st pid).next_id = st.next_id + 1 ∧
    (raid_add_member raid_id st pid).raid_queues =
      deleteByKey (fun q => q.identity) pid st.raid_queues ∧
    (raid_add_member raid_id st pid).raid_instances = st.raid_instances ∧
    (raid_add_member raid_id st pid).players = st.players ∧
    ∀ g, findByKey (fun gm => gm.identity) g st.player_game_modes = none →
      findByKey (fun gm => gm.identity) g
        (raid_add_member raid_id st pid).player_game_modes = none := by
  unfold raid_add_member
  rw [hp]
  dsimp only
  cases hg : findByKey (fun (gm : PlayerGameMode) => gm.identity) pid
      st.player_game_modes with
  | none => exact ⟨rfl, rfl, rfl, rfl, rfl, fun g hgg => hgg⟩
  | some gm =>
      dsimp only
      refine ⟨rfl, rfl, rfl, rfl, rfl, fun g hgg => ?_⟩
      exact findByKey_updateByKey_none (fun gm2 => gm2.identity) g pid
        (fun gm2 => { gm2 with mode := "raid", instance_id := some raid_id })
        (fun a => rfl) st.player_game_modes hgg

/-- C7 (amended): with a tank, a healer and two dps queued, each with
    an existing Player row of the matching class, the matchmaking tick
    creates one RaidInstance (800/800 boss hp, phase 1) and exactly four
    RaidParticipant rows for it — one tank, one healer, two dps — and
    deletes the four RaidQueue rows; but the PlayerGameMode table is
    only ever updated in place, so a party member who has no game-mode
    row still has none after the raid forms (the spec's unconditional
    "set game mode" is what fails). -/
theorem c7_raid_composition_amended (now : Nat) (st : GameState)
    (t hq d1 d2 : RaidQueue) (tres hres dres : List RaidQueue)
    (pt ph p1 p2 : Player)
    (ht : st.raid_queues.filter (fun q => q.player_class == "tank") = t :: tres)
    (hh : st.raid_queues.filter (fun q => q.player_class == "healer") = hq :: hres)
    (hd : st.raid_queues.filter (fun q => q.player_class == "dps") = d1 :: d2 :: dres)
    (hpt : findByKey (fun p => p.identity) t.identity st.players = some pt)
    (hph : findByKey (fun p => p.identity) hq.identity st.players = some ph)
    (hp1 : findByKey (fun p => p.identity) d1.identity st.players = some p1)
    (hp2 : findByKey (fun p => p.identity) d2.identity st.players = some p2)
    (hct : pt.player_class = "tank") (hch : ph.player_class = "healer")
    (hc1 : p1.player_class = "dps") (hc2 : p2.player_class = "dps") :
    (process_raid_queues now st).raid_instances =
      st.raid_instances ++
        [{ id := st.next_id, started_at := now, boss_hp := 800,
           boss_max_hp := 800, boss_phase := 1, wipe_count := 0 }] ∧
    (process_raid_queues now st).raid_participants =
      st.raid_participants ++
        [{ id := st.next_id + 1, raid_id := st.next_id, player_identity := t.identity,
           player_class := "tank", disconnected_at := none },
         { id := st.next_id + 2, raid_id := st.next_id, player_identity := hq.identity,
           player_class := "healer", disconnected_at := none },
         { id := st.next_id + 3, raid_id := st.next_id, player_identity := d1.identity,
           player_class := "dps", disconnected_at := none },
         { id := st.next_id + 4, raid_id := st.next_id, player_identity := d2.identity,
           player_class := "dps", disconnected_at := none }] ∧
    (process_raid_queues now st).raid_queues =
      deleteByKey (fun q => q.identity) d2.identity
        (deleteByKey (fun q => q.identity) d1.identity
          (deleteByKey (fun q => q.identity) hq.identity
            (deleteByKey (fun q => q.identity) t.identity st.raid_queues))) ∧
    ∀ g, findByKey (fun gm => gm.identity) g st.player_game_modes = none →
      findByKey (fun gm => gm.identity) g
        (process_raid_queues now st).player_game_modes = none := by
  unfold process_raid_queues
  dsimp only
  rw [ht, hh, hd]
  dsimp only
  simp only [List.foldl_cons, List.foldl_nil]
  obtain ⟨ha1, hn1, hq1, hi1, hpl1, hg1⟩ :=
    raid_add_member_found st.next_id
      { st with
        raid_instances :=
          (st.raid_instances ++
            [{ id := st.next_id, started_at := now,
               boss_hp := (get_enemy_stats "raid_boss" 1).1,
               boss_max_hp := (get_enemy_stats "raid_boss" 1).1,
               boss_phase := 1, wipe_count := 0 }]),
        next_id := st.next_id + 1 }
      t.identity pt hpt
  obtain ⟨ha2, hn2, hq2, hi2, hpl2, hg2⟩ :=
    raid_add_member_found st.next_id _ hq.identity ph (by rw [hpl1]; exact hph)
  obtain ⟨ha3, hn3, hq3, hi3, hpl3, hg3⟩ :=
    raid_add_member_found st.next_id _ d1.identity p1
      (by rw [hpl2, hpl1]; exact hp1)
  obtain ⟨ha4, hn4, hq4, hi4, hpl4, hg4⟩ :=
    raid_add_member_found st.next_id _ d2.identity p2
      (by rw [hpl3, hpl2, hpl1]; exact hp2)
  have hboss : get_enemy_stats "raid_boss" 1 = (800, 25) := by
    with_unfolding_all decide
  refine ⟨?_, ?_, ?_, ?_⟩
  · rw [hi4, hi3, hi2, hi1, hboss]
  · rw [ha4, hn3, hn2, hn1, ha3, hn2, hn1, ha2, hn1, ha1, hct, hch, hc1, hc2]
    simp only [List.append_assoc, List.singleton_append, List.cons_append,
      List.nil_append]
  · rw [hq4, hq3, hq2, hq1]
  · intro g hgg
    exact hg4 g (hg3 g (hg2 g (hg1 g hgg)))

theorem c7_raid_composition_amended_witness :
    (process_raid_queues 1000 c7State).raid_instances =
      c7State.raid_instances ++
        [{ id := 1, started_at := 1000, boss_hp := 800,
           boss_max_hp := 800, boss_phase := 1, wipe_count := 0 }] ∧
    (process_raid_queues 1000 c7State).raid_participants =
      c7State.raid_participants ++
        [{ id := 2, raid_id := 1, player_identity := 10,
           player_class := "tank", disconnected_at := none },
         { id := 3, raid_id := 1, player_identity := 11,
           player_class := "healer", disconnected_at := none },
         { id := 4, raid_id := 1, player_identity := 12,
           player_class := "dps", disconnected_at := none },
         { id := 5, raid_id := 1, player_identity := 13,
           player_class := "dps", disconnected_at := none }] ∧
    (process_raid_queues 1000 c7State).raid_queues =
      deleteByKey (fun q => q.identity) 13
        (deleteByKey (fun q => q.identity) 12
          (deleteByKey (fun q => q.identity) 11
            (deleteByKey (fun q => q.identity) 10 c7State.raid_queues))) ∧
    findByKey (fun gm => gm.identity) 10
      (process_raid_queues 1000 c7State).player_game_modes = none := by
  have thm := c7_raid_composition_amended 1000 c7State
    ⟨10, "tank", 0⟩ ⟨11, "healer", 0⟩ ⟨12, "dps", 0⟩ ⟨13, "dps", 0⟩
    [] [] [] c7Tank c7Healer c7Dps1 c7Dps2
    (by with_unfolding_all decide) (by with_unfolding_all decide)
    (by with_unfolding_all decide) (by with_unfolding_all decide)
    (by with_unfolding_all decide) (by with_unfolding_all decide)
    (by with_unfolding_all decide) rfl rfl rfl rfl
  exact ⟨thm.1, thm.2.1, thm.2.2.1,
    thm.2.2.2 10 (by with_unfolding_all decide)⟩

/-- C10: start_dungeon restores the caller's hp to max_hp whenever
    hp < max_hp, with no check that the caller was dead: an alive but
    injured caller is fully healed before joining or creating a
    dungeon. -/
theorem c10_start_dungeon_heals (M : FloatModel) (now sender : Nat)
    (st : GameState) (player : Player)
    (hfp : findByKey (fun p => p.identity) sender st.players = some player)
    (hinj : player.hp < player.max_hp) :
    ∀ st', start_dungeon M now sender st = .ok st' →
      findByKey (fun p => p.identity) sender st'.players =
        some { player with hp := player.max_hp } := by
  intro st' hok
  rw [start_dungeon_players_eq M now sender st player hfp st' hok, if_pos hinj]
  have hkey : player.identity = sender := findByKey_eq_key _ _ _ _ hfp
  rw [findByKey_updateByKey (fun (p : Player) => p.identity) sender
    (fun _ => { player with hp := player.max_hp }) st.players (fun a _ => hkey),
    hfp]
  rfl

set_option maxRecDepth 20000 in
theorem c10_start_dungeon_heals_witness :
    findByKey (fun p => p.identity) 1
      ((start_dungeon testModel 0 1 c10State).toOption.getD emptyState).players =
      some { c10Player with hp := c10Player.max_hp } :=
  c10_start_dungeon_heals testModel 0 1 c10State c10Player
    (by with_unfolding_all decide) (by with_unfolding_all decide)
    ((start_dungeon testModel 0 1 c10State).toOption.getD emptyState)
    (by with_unfolding_all decide)

-- ── C8 machinery: raid-boss phase logic ──

theorem raid_boss_transition_basic (e : DungeonEnemy) :
    (raid_boss_transition e).max_hp = e.max_hp ∧
    (raid_boss_transition e).hp = e.hp ∧
    (raid_boss_transition e).boss_phase = phaseOf e.hp e.max_hp := by
  unfold raid_boss_transition
  dsimp only
  split_ifs with h1 h2 h3
  · exact ⟨rfl, rfl, rfl⟩
  · exact ⟨rfl, rfl, rfl⟩
  · exact ⟨rfl, rfl, rfl⟩
  · exact ⟨rfl, rfl, (not_ne_iff.mp h1).symm⟩

theorem ai_raid_boss_act_basic (M : FloatModel) (e : DungeonEnemy)
    (target : PlayerPosition) (d2 nx ny dt : Q)
    (positions : List PlayerPosition) (players : List Player) :
    (ai_raid_boss_act M e target d2 nx ny dt positions players).e.max_hp = e.max_hp ∧
    (ai_raid_boss_act M e target d2 nx ny dt positions players).e.hp = e.hp ∧
    (ai_raid_boss_act M e target d2 nx ny dt positions players).e.boss_phase =
      e.boss_phase := by
  unfold ai_raid_boss_act
  dsimp only
  split_ifs <;> exact ⟨rfl, rfl, rfl⟩

theorem ai_raid_boss_basic (M : FloatModel) (e : DungeonEnemy)
    (target : PlayerPosition) (d2 nx ny dt : Q)
    (positions : List PlayerPosition) (players : List Player) :
    (ai_raid_boss M e target d2 nx ny dt positions players).e.max_hp = e.max_hp ∧
    (ai_raid_boss M e target d2 nx ny dt positions players).e.hp = e.hp ∧
    (ai_raid_boss M e target d2 nx ny dt positions players).e.boss_phase =
      phaseOf e.hp e.max_hp := by
  unfold ai_raid_boss
  obtain ⟨m1, h1, p1⟩ := ai_raid_boss_act_basic M
    (raid_boss_transition (ai_raid_boss_pre M e nx ny dt)) target d2 nx ny dt
    positions players
  obtain ⟨m2, h2, p2⟩ := raid_boss_transition_basic (ai_raid_boss_pre M e nx ny dt)
  refine ⟨?_, ?_, ?_⟩
  · rw [m1, m2]
    rfl
  · rw [h1, h2]
    rfl
  · rw [p1, p2]
    rfl

theorem phaseOf_three_mono (h1 h2 mx : Int) (hmax : 0 < mx) (hle : h1 ≤ h2)
    (h3 : phaseOf h2 mx = 3) : phaseOf h1 mx = 3 := by
  have hmxQ : (0 : Q) < (mx : Q) := by exact_mod_cast hmax
  have hleQ : (h1 : Q) ≤ (h2 : Q) := by exact_mod_cast hle
  have hq : (h1 : Q) / (mx : Q) ≤ (h2 : Q) / (mx : Q) :=
    (div_le_div_right hmxQ).mpr hleQ
  unfold phaseOf at h3 ⊢
  dsimp only at h3 ⊢
  split_ifs at h3 with a b
  · exact absurd h3 (by norm_num)
  · exact absurd h3 (by norm_num)
  · split_ifs with c d
    · exfalso
      push_neg at a
      linarith
    · exfalso
      push_neg at b
      linarith
    · rfl

theorem aoe_fold (dmg : Int) (dungeon : Nat) :
    ∀ (positions : List PlayerPosition) (players : List Player),
      (positions.map (fun p => p.identity)).Nodup →
      positions.foldl (fun players pos =>
        if pos.dungeon_id = dungeon then aoeHit dmg pos.identity players
        else players) players =
      players.map (fun p =>
        if positions.any (fun pos =>
            pos.dungeon_id == dungeon && pos.identity == p.identity)
        then { p with hp := max (p.hp - dmg) 0 } else p) := by
  intro positions
  induction positions with
  | nil =>
      intro players _
      simp
  | cons pos rest ih =>
      intro players hnd
      rw [List.map_cons, List.nodup_cons] at hnd
      obtain ⟨hni, hnd2⟩ := hnd
      rw [List.foldl_cons]
      by_cases hdun : pos.dungeon_id = dungeon
      · rw [if_pos hdun, ih (aoeHit dmg pos.identity players) hnd2]
        unfold aoeHit setPlayerHp
        rw [List.map_map]
        refine congrArg (fun fn => List.map fn players) ?_
        funext q
        by_cases hq : q.identity = pos.identity
        · have hne : rest.any (fun pos2 =>
              pos2.dungeon_id == dungeon && pos2.identity == pos.identity) = false := by
            rw [List.any_eq_false]
            intro x hx
            have hxi : x.identity ≠ pos.identity := by
              intro hcon
              exact hni (hcon ▸ List.mem_map_of_mem (fun p => p.identity) hx)
            simp [hxi]
          simp [Function.comp, hq, hne, hdun]
        · have hf : (pos.identity == q.identity) = false :=
            beq_eq_false_iff_ne.mpr (fun hcon => hq hcon.symm)
          simp [Function.comp, hq, hf]
      · rw [if_neg hdun, ih players hnd2]
        have hf : (pos.dungeon_id == dungeon) = false := beq_eq_false_iff_ne.mpr hdun
        refine congrArg (fun fn => List.map fn players) ?_
        funext q
        simp [hf]

theorem bossTick_basic (M : FloatModel) (e : DungeonEnemy) (s : BossStep) :
    (bossTick M e s).max_hp = e.max_hp ∧
    (bossTick M e s).hp = s.newHp ∧
    (bossTick M e s).boss_phase = phaseOf s.newHp e.max_hp := by
  unfold bossTick
  obtain ⟨m, h, p⟩ := ai_raid_boss_basic M { e with hp := s.newHp } s.target s.d2
    s.nx s.ny AI_DT s.positions s.players
  exact ⟨m, h, p⟩

theorem enrageCount_absorbed (M : FloatModel) :
    ∀ (l : List BossStep) (e : DungeonEnemy) (h0 : Int),
      0 < e.max_hp → e.boss_phase = 3 → phaseOf h0 e.max_hp = 3 →
      NonIncFrom h0 l → enrageCount M e l = 0 := by
  intro l
  induction l with
  | nil => intro e h0 _ _ _ _; rfl
  | cons s rest ih =>
      intro e h0 hmax hbp hph hni
      obtain ⟨hle, hni2⟩ := hni
      have hph2 : phaseOf s.newHp e.max_hp = 3 :=
        phaseOf_three_mono _ _ _ hmax hle hph
      obtain ⟨bm, bh, bp⟩ := bossTick_basic M e s
      show (if e.boss_phase ≠ 3 ∧ phaseOf s.newHp e.max_hp = 3 then 1 else 0) +
        enrageCount M (bossTick M e s) rest = 0
      rw [if_neg (by simp [hbp]), Nat.zero_add]
      exact ih (bossTick M e s) s.newHp (by rw [bm]; exact hmax)
        (bp.trans hph2) (by rw [bm]; exact hph2) hni2

theorem enrageCount_le_one_aux (M : FloatModel) :
    ∀ (l : List BossStep) (e : DungeonEnemy),
      0 < e.max_hp → e.boss_phase = phaseOf e.hp e.max_hp →
      NonIncFrom e.hp l → enrageCount M e l ≤ 1 := by
  intro l
  induction l with
  | nil => intro e _ _ _; exact Nat.zero_le 1
  | cons s rest ih =>
      intro e hmax hbp hni
      obtain ⟨hle, hni2⟩ := hni
      obtain ⟨bm, bh, bp⟩ := bossTick_basic M e s
      show (if e.boss_phase ≠ 3 ∧ phaseOf s.newHp e.max_hp = 3 then 1 else 0) +
        enrageCount M (bossTick M e s) rest ≤ 1
      by_cases hcond : e.boss_phase ≠ 3 ∧ phaseOf s.newHp e.max_hp = 3
      · rw [if_pos hcond]
        have h0 : enrageCount M (bossTick M e s) rest = 0 :=
          enrageCount_absorbed M rest (bossTick M e s) s.newHp
            (by rw [bm]; exact hmax) (bp.trans hcond.2)
            (by rw [bm]; exact hcond.2) hni2
        omega
      · rw [if_neg hcond]
        have hrec := ih (bossTick M e s) (by rw [bm]; exact hmax)
          (by rw [bp, bh, bm]) (by rw [bh]; exact hni2)
        omega

theorem ai_raid_boss_act_aoe (M : FloatModel) (e : DungeonEnemy)
    (target : PlayerPosition) (d2 nx ny dt : Q)
    (positions : List PlayerPosition) (players : List Player)
    (h3 : e.boss_phase = 3) (ht : e.state_timer ≤ 0)
    (hnd : (positions.map (fun p => p.identity)).Nodup) :
    (ai_raid_boss_act M e target d2 nx ny dt positions players).e.state_timer = 4 ∧
    (ai_raid_boss_act M e target d2 nx ny dt positions players).e.ai_state = "aoe" ∧
    (ai_raid_boss_act M e target d2 nx ny dt positions players).players =
      players.map (fun p =>
        if positions.any (fun pos =>
            pos.dungeon_id == e.dungeon_id && pos.identity == p.identity)
        then { p with hp := max (p.hp - max (e.atk / 3) 5) 0 } else p) := by
  unfold ai_raid_boss_act
  dsimp only
  rw [if_neg (by omega), if_neg (by omega), if_pos h3, if_pos ht]
  refine ⟨rfl, rfl, ?_⟩
  exact aoe_fold (max (e.atk / 3) 5) e.dungeon_id positions players hnd

/-- C8: every tick the raid boss recomputes its phase from the hp
    fraction p = hp/max_hp (1 if p > 0.6, 2 if p > 0.3, else 3); on a
    phase change state_timer is set to 0.5, entering phase 2 teleports
    the boss to (270, 360), entering phase 3 multiplies atk by 1.5 —
    and along any run in which the boss's externally-set hp never
    increases, the enrage fires at most once; in phase 3 every expiry
    of the timer resets it to 4 s and deals max(atk/3, 5) damage to
    every player positioned in the boss's dungeon. -/
theorem c8_raid_boss_phases (M : FloatModel) :
    (∀ (e : DungeonEnemy) (target : PlayerPosition) (d2 nx ny dt : Q)
        (positions : List PlayerPosition) (players : List Player),
      (ai_raid_boss M e target d2 nx ny dt positions players).e.boss_phase =
        phaseOf e.hp e.max_hp) ∧
    (∀ e : DungeonEnemy, phaseOf e.hp e.max_hp ≠ e.boss_phase →
      (raid_boss_transition e).state_timer = 1/2 ∧
      (phaseOf e.hp e.max_hp = 2 →
        (raid_boss_transition e).x = 270 ∧ (raid_boss_transition e).y = 360 ∧
        (raid_boss_transition e).ai_state = "phase2") ∧
      (phaseOf e.hp e.max_hp = 3 →
        (raid_boss_transition e).atk = truncQ ((e.atk : Q) * (3/2)) ∧
        (raid_boss_transition e).ai_state = "enrage")) ∧
    (∀ (e : DungeonEnemy) (l : List BossStep),
      0 < e.max_hp → e.boss_phase = phaseOf e.hp e.max_hp →
      NonIncFrom e.hp l → enrageCount M e l ≤ 1) ∧
    (∀ (e : DungeonEnemy) (target : PlayerPosition) (d2 nx ny dt : Q)
        (positions : List PlayerPosition) (players : List Player),
      e.boss_phase = 3 → e.state_timer ≤ 0 →
      (positions.map (fun p => p.identity)).Nodup →
      (ai_raid_boss_act M e target d2 nx ny dt positions players).e.state_timer = 4 ∧
      (ai_raid_boss_act M e target d2 nx ny dt positions players).e.ai_state = "aoe" ∧
      (ai_raid_boss_act M e target d2 nx ny dt positions players).players =
        players.map (fun p =>
          if positions.any (fun pos =>
              pos.dungeon_id == e.dungeon_id && pos.identity == p.identity)
          then { p with hp := max (p.hp - max (e.atk / 3) 5) 0 } else p)) := by
  refine ⟨?_, ?_, ?_, ?_⟩
  · intro e target d2 nx ny dt positions players
    exact (ai_raid_boss_basic M e target d2 nx ny dt positions players).2.2
  · intro e hne
    unfold raid_boss_transition
    dsimp only
    rw [if_pos hne]
    split_ifs with h2 h3
    · exact ⟨rfl, fun _ => ⟨rfl, rfl, rfl⟩, fun hc => absurd hc (by omega)⟩
    · exact ⟨rfl, fun hc => absurd hc (by omega), fun _ => ⟨rfl, rfl⟩⟩
    · exact ⟨rfl, fun hc => absurd hc h2, fun hc => absurd hc h3⟩
  · intro e l hmax hbp hni
    exact enrageCount_le_one_aux M l e hmax hbp hni
  · intro e target d2 nx ny dt positions players h3 ht hnd
    exact ai_raid_boss_act_aoe M e target d2 nx ny dt positions players h3 ht hnd

theorem c8_raid_boss_phases_witness :
    (ai_raid_boss testModel c8Boss c4Pos 0 0 0 AI_DT [c4Pos] [basePlayer]).e.boss_phase =
      phaseOf c8Boss.hp c8Boss.max_hp ∧
    ((raid_boss_transition c8P2).state_timer = 1/2 ∧
      (raid_boss_transition c8P2).x = 270 ∧ (raid_boss_transition c8P2).y = 360 ∧
      (raid_boss_transition c8P2).ai_state = "phase2") ∧
    ((raid_boss_transition c8P3).atk = truncQ ((c8P3.atk : Q) * (3/2)) ∧
      (raid_boss_transition c8P3).ai_state = "enrage") ∧
    enrageCount testModel c8Boss c8Trace ≤ 1 ∧
    enrageCount testModel c8Boss c8Trace = 1 ∧
    ((ai_raid_boss_act testModel c8P3t c4Pos 0 0 0 AI_DT [c4Pos] [basePlayer]).e.state_timer = 4 ∧
      (ai_raid_boss_act testModel c8P3t c4Pos 0 0 0 AI_DT [c4Pos] [basePlayer]).e.ai_state = "aoe" ∧
      (ai_raid_boss_act testModel c8P3t c4Pos 0 0 0 AI_DT [c4Pos] [basePlayer]).players =
        [basePlayer].map (fun p =>
          if [c4Pos].any (fun pos =>
              pos.dungeon_id == c8P3t.dungeon_id && pos.identity == p.identity)
          then { p with hp := max (p.hp - max (c8P3t.atk / 3) 5) 0 } else p)) :=
  ⟨(c8_raid_boss_phases testModel).1 c8Boss c4Pos 0 0 0 AI_DT [c4Pos] [basePlayer],
   ⟨((c8_raid_boss_phases testModel).2.1 c8P2 (by with_unfolding_all decide)).1,
    (((c8_raid_boss_phases testModel).2.1 c8P2 (by with_unfolding_all decide)).2.1
      (by with_unfolding_all decide))⟩,
   ((c8_raid_boss_phases testModel).2.1 c8P3 (by with_unfolding_all decide)).2.2
     (by with_unfolding_all decide),
   (c8_raid_boss_phases testModel).2.2.1 c8Boss c8Trace
     (by with_unfolding_all decide) (by with_unfolding_all decide)
     (by with_unfolding_all decide),
   by with_unfolding_all decide,
   (c8_raid_boss_phases testModel).2.2.2 c8P3t c4Pos 0 0 0 AI_DT [c4Pos] [basePlayer]
     rfl (by with_unfolding_all decide) (by with_unfolding_all decide)⟩
